import Mathlib

/-!
Verification development for `bgc_md2/models/CARDAMOM/CARDAMOMlib.py`.

The Python module is shallowly embedded below.  Conventions:
* floating point values are idealised as extended rationals (`EFloat`):
  a finite rational, `+inf`, `-inf`, or `nan`, with numpy-style arithmetic
  (exact where numpy rounds, which is irrelevant for the claims settled here);
* numpy arrays become Lean lists (or `Fin`-indexed functions for the
  linear-algebra layer, where Mathlib matrices over `ℚ` are used);
* exceptions become `Except` values: an `Except.error` escaping a function
  models an uncaught Python exception;
* code of the repository that is not part of the examined source file
  (`ModelDataObject.create_discrete_model_run`, `create_model_run`,
  `to_14C_only`, the `CompartmentalSystems` solvers, `Variable.convert`)
  is either taken as a universally quantified parameter or modelled from
  the specification, as indicated by the doc comment of each definition.
-/

namespace CARDAMOMlib

/-- Extended floating point values: a finite rational, an infinity, or NaN.
IEEE-754/numpy arithmetic with exact finite arithmetic. -/
inductive EFloat where
  | fin : ℚ → EFloat
  | posinf : EFloat
  | neginf : EFloat
  | nan : EFloat
deriving DecidableEq

namespace EFloat

/-- Numpy negation on extended floats. -/
def neg : EFloat → EFloat
  | fin a => fin (-a)
  | posinf => neginf
  | neginf => posinf
  | nan => nan

/-- Numpy addition on extended floats. -/
def add : EFloat → EFloat → EFloat
  | nan, _ => nan
  | _, nan => nan
  | fin a, fin b => fin (a + b)
  | fin _, posinf => posinf
  | fin _, neginf => neginf
  | posinf, fin _ => posinf
  | neginf, fin _ => neginf
  | posinf, posinf => posinf
  | neginf, neginf => neginf
  | posinf, neginf => nan
  | neginf, posinf => nan

/-- Numpy subtraction on extended floats. -/
def sub (x y : EFloat) : EFloat := add x (neg y)

/-- Numpy multiplication on extended floats (`0 * inf = nan`). -/
def mul : EFloat → EFloat → EFloat
  | nan, _ => nan
  | _, nan => nan
  | fin a, fin b => fin (a * b)
  | fin a, posinf => if 0 < a then posinf else if a < 0 then neginf else nan
  | fin a, neginf => if 0 < a then neginf else if a < 0 then posinf else nan
  | posinf, fin b => if 0 < b then posinf else if b < 0 then neginf else nan
  | neginf, fin b => if 0 < b then neginf else if b < 0 then posinf else nan
  | posinf, posinf => posinf
  | posinf, neginf => neginf
  | neginf, posinf => neginf
  | neginf, neginf => posinf

/-- Numpy division on extended floats.  Zero is the IEEE positive zero, so a
nonzero finite value divided by zero is a signed infinity and `0/0 = nan`. -/
def div : EFloat → EFloat → EFloat
  | nan, _ => nan
  | _, nan => nan
  | fin a, fin b =>
      if b = 0 then (if a = 0 then nan else if 0 < a then posinf else neginf)
      else fin (a / b)
  | fin _, posinf => fin 0
  | fin _, neginf => fin 0
  | posinf, fin b => if 0 ≤ b then posinf else neginf
  | neginf, fin b => if 0 ≤ b then neginf else posinf
  | posinf, posinf => nan
  | posinf, neginf => nan
  | neginf, posinf => nan
  | neginf, neginf => nan

instance : Neg EFloat := ⟨neg⟩
instance : Add EFloat := ⟨add⟩
instance : Sub EFloat := ⟨sub⟩
instance : Mul EFloat := ⟨mul⟩
instance : Div EFloat := ⟨div⟩

/-- The finite part of an extended float, if any. -/
def finPart : EFloat → Option ℚ
  | fin a => some a
  | _ => none

/-- Numpy `sum` of a list of extended floats. -/
def listSum (l : List EFloat) : EFloat := l.foldl add (fin 0)

/-- Numpy `mean` of a list of extended floats (`sum / len`; empty list
gives `0/0 = nan`, as numpy warns-and-returns-nan). -/
def listMean (l : List EFloat) : EFloat := div (listSum l) (fin (l.length : ℚ))

end EFloat

/-- `alpha = 1.18e-12` (CARDAMOMlib.py lines 96/135/306/371): the reference
14C/12C standard ratio. -/
def alpha : ℚ := 1.18e-12

/-- `lamda = 0.0001209681` (lines 316/375): the radioactive decay constant
of 14C as used by the source. -/
def lamda : ℚ := 0.0001209681

/-- All months comprise `365.25/12` days (line 75). -/
def daysPerMonth : ℚ := 365.25 / 12

/-- `t_conv = lambda t: 2001 + (15+t)/365.25` (lines 97/136/303/369):
maps internal time in days to a calendar year. -/
def t_conv (t : ℚ) : ℚ := 2001 + (15 + t) / 365.25

/-- `F_Delta_14C = lambda C12, C14: (C14/C12/alpha - 1) * 1000`
(lines 98/137): the Delta-14C diagnostic applied elementwise to paired
12C/14C values. -/
def F_Delta_14C (C12 C14 : EFloat) : EFloat :=
  (C14 / C12 / EFloat.fin alpha - EFloat.fin 1) * EFloat.fin 1000

/-- `np.finfo(np.float64).min`, the most negative finite double:
`-(2 - 2^-52) * 2^1023 = -1.7976931348623157e308`.  This is the value
`np.nan_to_num` substitutes for `-inf` when no `neginf` argument is given. -/
def lowestFloat : ℚ := -(2 ^ 1024 - 2 ^ 971)

/-- `np.nan_to_num(x, posinf=0, copy=False)` (line 312) applied to one entry:
`nan` is replaced by the default `0.0`, `+inf` by the explicit `posinf=0`,
and `-inf` by the default `np.finfo(float).min`, because no `neginf`
argument is supplied. -/
def nanToNum (x : EFloat) : EFloat :=
  match x with
  | .nan => .fin 0
  | .posinf => .fin 0
  | .neginf => .fin lowestFloat
  | .fin q => .fin q

/-! ### Exceptions -/

/-- The Python exceptions relevant to the module:
`ValueError` (invalid method, xarray dimension conflicts, `Dataset.copy`
key mismatches), `numpy.linalg.LinAlgError` (singular solve), and
`CompartmentalSystems.discrete_model_run.DMRError` (reconstruction failure;
the only class caught by the `except` clause at line 467). -/
inductive PyErr where
  | valueError : String → PyErr
  | linAlgError : String → PyErr
  | dmrError : String → PyErr
deriving DecidableEq

/-! ### Linear-algebra layer -/

/-- Numpy `np.mean(ms, axis=0)` for a list of rational matrices. -/
def matMean {np : ℕ} (l : List (Matrix (Fin np) (Fin np) ℚ)) :
    Matrix (Fin np) (Fin np) ℚ :=
  Matrix.of fun i j => (l.map (fun M => M i j)).sum / (l.length : ℚ)

/-- Numpy `np.mean(vs, axis=0)` for a list of extended-float vectors
(`nan`/`inf` entries propagate as in numpy). -/
def vecMean {np : ℕ} (l : List (Fin np → EFloat)) : Fin np → EFloat :=
  fun p => EFloat.listMean (l.map (fun v => v p))

/-- `np.linalg.solve(M, v)`: raises `LinAlgError` exactly when `M` is
singular; otherwise returns the solution (idealised as the exact rational
solution `det⁻¹ • adjugate M *ᵥ v` when all entries of `v` are finite, and
a nan vector when `v` carries non-finite entries, which LAPACK propagates
without raising). -/
def linalgSolve {np : ℕ} (M : Matrix (Fin np) (Fin np) ℚ) (v : Fin np → EFloat) :
    Except PyErr (Fin np → EFloat) :=
  if M.det = 0 then .error (.linAlgError ("Singular matrix"))
  else if _h : ∀ p, ((v p).finPart).isSome then
    .ok (fun p => .fin ((M.det⁻¹ • M.adjugate.mulVec (fun q => ((v q).finPart).getD 0)) p))
  else .ok (fun _ => .nan)

/-! ### Model runs

`DiscreteModelRun` / `SmoothModelRun` live in the external
`CompartmentalSystems` package; only the accessors the source uses are
modelled. -/

/-- The part of a `DiscreteModelRun` read by `load_dmr_14C`:
`dmr.times` (length `N+1`), `dmr.Bs` (the `N` per-step transfer matrices)
and `dmr.external_input_vector` (the `N` per-step input vectors). -/
structure Dmr (np : ℕ) where
  times : List ℚ
  Bs : List (Matrix (Fin np) (Fin np) ℚ)
  external_input_vector : List (Fin np → EFloat)

/-- The 14C companion system produced by `dmr.to_14C_only(start_values, us)`
(the external constructor keeps the data it is handed). -/
structure Dmr14 (np : ℕ) where
  start_values : Fin np → EFloat
  us : List (Fin np → EFloat)

/-- The part of a `SmoothModelRun` read by `load_smr_14C`: `smr.times`,
`smr.B_func()` and `smr.external_input_vector_func()`. -/
structure Smr (np : ℕ) where
  times : List ℚ
  B_func : ℚ → Matrix (Fin np) (Fin np) ℚ
  u_func : ℚ → Fin np → ℚ

/-- The 14C companion system produced by `smr.to_14C_only(start_values, Fa_func)`. -/
structure Smr14 (np : ℕ) where
  start_values : Fin np → EFloat
  Fa_func : ℚ → EFloat

/-- Lines 306-312: `us_14C = alpha * us_12C * (1 + 1/1000 * F_atm(dmr.times[:-1]))`
followed by `np.nan_to_num(us_14C, posinf=0, copy=False)`.  `Fatm` is the
external `interp1d` interpolant of the reference table, taking a calendar
year (the source composes it with `t_conv`). -/
def us_14C {np : ℕ} (Fatm : ℚ → EFloat) (dmr : Dmr np) : List (Fin np → EFloat) :=
  (dmr.external_input_vector.zip dmr.times.dropLast).map
    (fun ut => fun p =>
      nanToNum (EFloat.fin alpha * ut.1 p *
        (EFloat.fin 1 + EFloat.fin (1 / 1000) * Fatm (t_conv ut.2))))

/-- Lines 337-340 (variant V3): `B0_14C` is the mean over all steps of
`np.matmul(dmr.Bs[k], np.exp(-lamda*365.25/12) * np.identity(nr_pools))`.
The transcendental scalar `np.exp(-lamda*365.25/12)` is abstracted as the
parameter `expNegLamDt`. -/
def B0_14C_dmr {np : ℕ} (expNegLamDt : ℚ) (dmr : Dmr np) :
    Matrix (Fin np) (Fin np) ℚ :=
  matMean (dmr.Bs.map (fun B => B * (expNegLamDt • (1 : Matrix (Fin np) (Fin np) ℚ))))

/-- Lines 288-351, `load_dmr_14C(dmr)`: builds the 14C input series, solves
`(I - B0_14C) x0 = mean(us_14C)` with `np.linalg.solve` (which raises
`LinAlgError` on a singular matrix; nothing here catches it), and hands both
to `dmr.to_14C_only`. -/
def load_dmr_14C {np : ℕ} (Fatm : ℚ → EFloat) (expNegLamDt : ℚ) (dmr : Dmr np) :
    Except PyErr (Dmr14 np) :=
  let us14 := us_14C Fatm dmr
  match linalgSolve (1 - B0_14C_dmr expNegLamDt dmr) (vecMean us14) with
  | .error e => .error e
  | .ok sv => .ok { start_values := sv, us := us14 }

/-- Lines 379-385 (variant V3): the continuous `B0_14C` is the mean over
`smr.times[:-1]` of `B_func(t) + (-lamda*365.25/12) * np.identity(nr_pools)`.
Note the decay term is `lamda * 365.25/12`, not `lamda`. -/
def B0_14C_smr {np : ℕ} (smr : Smr np) : Matrix (Fin np) (Fin np) ℚ :=
  matMean (smr.times.dropLast.map
    (fun t => smr.B_func t + (-(lamda * daysPerMonth)) • (1 : Matrix (Fin np) (Fin np) ℚ)))

/-- Modelled from the spec (claim C6 refinement target): the same mean with
the decay term the specification states, `B(t) - lambda * I`
(spec 4.2 step 3: "the mean of `B(t) - lambda*I` (continuous)"). -/
def B0_14C_smr_spec {np : ℕ} (smr : Smr np) : Matrix (Fin np) (Fin np) ℚ :=
  matMean (smr.times.dropLast.map
    (fun t => smr.B_func t + (-lamda) • (1 : Matrix (Fin np) (Fin np) ℚ)))

/-- Lines 386-390: `u0_14C = np.mean([u_func(t) * Fa_func(t) for t in smr.times[:-1]], axis=0)`. -/
def u0_14C_smr {np : ℕ} (FaFunc : ℚ → EFloat) (smr : Smr np) : Fin np → EFloat :=
  vecMean (smr.times.dropLast.map (fun t => fun p => EFloat.fin (smr.u_func t p) * FaFunc t))

/-- Lines 354-399, `load_smr_14C(smr)`: builds
`Fa_func(t) = alpha * (F_atm(t)/1000 + 1)`, forms the continuous `B0_14C`
and `u0_14C`, solves `-B0_14C x0 = u0_14C` with `np.linalg.solve`
(uncaught `LinAlgError` on singularity), and hands the results to
`smr.to_14C_only`. -/
def load_smr_14C {np : ℕ} (Fatm : ℚ → EFloat) (smr : Smr np) :
    Except PyErr (Smr14 np) :=
  let FaFunc : ℚ → EFloat :=
    fun t => EFloat.fin alpha * (Fatm (t_conv t) / EFloat.fin 1000 + EFloat.fin 1)
  match linalgSolve (-(B0_14C_smr smr)) (u0_14C_smr FaFunc smr) with
  | .error e => .error e
  | .ok sv => .ok { start_values := sv, Fa_func := FaFunc }

/-! ### xarray datasets

Only the structure the source touches is modelled: named variables carrying
dimension names, a shape, and data (float or string entries); the dataset
dimension-size registry (xarray refuses a variable whose dimension sizes
conflict with it); the coordinate variables; and the shape of the `ens`
coordinate, which the source inspects directly. -/

/-- Payload of a variable: float entries or string entries (flattened). -/
inductive VarData where
  | floats : List EFloat → VarData
  | strs : List String → VarData
deriving DecidableEq

/-- An `xr.DataArray`-like variable. -/
structure DataVar where
  dims : List String
  shape : List ℕ
  data : VarData
deriving DecidableEq

/-- An `xr.Dataset`-like object. -/
structure Dataset where
  /-- Registry of dimension sizes. -/
  dims : List (String × ℕ)
  /-- The data variables, in insertion order. -/
  dataVars : List (String × DataVar)
  /-- The coordinate variables (`time`, `ens`, ...). -/
  coordVars : List (String × DataVar)
  /-- Shape of `ds.ens.values` (`[]` for a scalar coordinate after `isel`,
  `[k]` for a length-`k` ens dimension). -/
  ensShape : List ℕ
deriving DecidableEq

namespace Dataset

/-- `ds.variables.keys()`: data variables and coordinates alike. -/
def varNames (ds : Dataset) : List String :=
  (ds.dataVars ++ ds.coordVars).map Prod.fst

/-- `ds[name]` for reading: data variables take precedence; coordinates are
also reachable. -/
def lookupVar (ds : Dataset) (name : String) : Option DataVar :=
  match ds.dataVars.lookup name with
  | some v => some v
  | none => ds.coordVars.lookup name

/-- `name in ds.data_vars` lookup. -/
def lookupDataVar (ds : Dataset) (name : String) : Option DataVar :=
  ds.dataVars.lookup name

end Dataset

/-- Replace the binding of `name` if present, else append it (python dict /
xarray variable-assignment update order). -/
def upsert (l : List (String × DataVar)) (name : String) (v : DataVar) :
    List (String × DataVar) :=
  if name ∈ l.map Prod.fst then
    l.map (fun kv => if kv.1 = name then (name, v) else kv)
  else l ++ [(name, v)]

/-- xarray dimension compatibility: each (dim, size) of a new variable must
either be new to the dataset or agree with the registered size. -/
def dimsOk (reg : List (String × ℕ)) (vdims : List (String × ℕ)) : Prop :=
  ∀ p ∈ vdims, reg.lookup p.1 = none ∨ reg.lookup p.1 = some p.2

instance (reg vdims : List (String × ℕ)) : Decidable (dimsOk reg vdims) :=
  List.decidableBAll _ vdims

/-- Extend the registry with the dimensions a new variable introduces. -/
def mergeDims (reg : List (String × ℕ)) (vdims : List (String × ℕ)) :
    List (String × ℕ) :=
  reg ++ vdims.filter (fun p => reg.lookup p.1 = none)

/-- `ds[name] = v` (xarray `Dataset.__setitem__`): raises `ValueError` when a
dimension size conflicts with the dataset, otherwise stores the variable and
registers its new dimensions.  (Assignment under a coordinate name, which
would replace the coordinate, does not occur in the source.) -/
def Dataset.setVar (ds : Dataset) (name : String) (v : DataVar) :
    Except PyErr Dataset :=
  let vdims := v.dims.zip v.shape
  if dimsOk ds.dims vdims then
    .ok { ds with dims := mergeDims ds.dims vdims,
                  dataVars := upsert ds.dataVars name v }
  else .error (.valueError ("conflicting sizes for dimension"))

/-! ### `create_Delta_14C_dataset` (lines 134-285) -/

/-- `ms.pool_names` of the `ModelStructure` built by `load_model_structure`
(lines 21-63); `load_mdo` always uses this structure. -/
def load_model_structure_pool_names : List String :=
  ["Labile", "Leaf", "Root", "Wood", "Litter", "Soil"]

/-- The realized outputs of a model run that `create_Delta_14C_dataset`
reads: `len(mr.times)`, the solution trajectory `mr.solve()` (for an `SMR`,
the first component of the returned pair), `mr.external_input_vector`,
`mr.internal_flux_matrix` (indexed `[step, to, from]`), and
`mr.external_output_vector`.  These come from the external
`CompartmentalSystems` solvers, so they enter the embedding as data. -/
structure MrView where
  timesLen : ℕ
  soln : List (List EFloat)
  external_input_vector : List (List EFloat)
  internal_flux_matrix : List (List (List EFloat))
  external_output_vector : List (List EFloat)
deriving DecidableEq

/-- Column `p` of a 2-d array (`a[:, p]`); the `nan` default is unreachable
for well-formed runs. -/
def colD (m : List (List EFloat)) (p : ℕ) : List EFloat :=
  m.map (fun row => row.getD p EFloat.nan)

/-- Modelled from the spec: `bgc_md2.Variable.convert` is not under `src/`.
Per spec 4.3 step 2 and section 8 item 7, converting a flux stored in
`g/(365.25/12 d)` to `g/d` divides each value by the step length
`365.25/12` days. -/
def convertMonthlyToDaily (x : EFloat) : EFloat :=
  x / EFloat.fin daysPerMonth

/-- Lines 165-174 / 245-254: prepend a `nan` row for step 0 and keep the
first `len(mr.times) - 1` flux rows (`np.concatenate([nan_row, v[:N-1]])`). -/
def fluxMonthly (poolCount timesLen : ℕ) (flux : List (List EFloat)) :
    List (List EFloat) :=
  List.replicate poolCount EFloat.nan :: flux.take (timesLen - 1)

/-- Lines 201-224: same step-0 shift for the internal flux matrices. -/
def fluxMonthly3 (poolCount timesLen : ℕ) (flux : List (List (List EFloat))) :
    List (List (List EFloat)) :=
  List.replicate poolCount (List.replicate poolCount EFloat.nan)
    :: flux.take (timesLen - 1)

/-- Lines 187/227/268: `Variable.convert('g/d')` applied to a 2-d monthly
flux array. -/
def toDaily (m : List (List EFloat)) : List (List EFloat) :=
  m.map (List.map convertMonthlyToDaily)

/-- Same conversion for the 3-d internal-flux array. -/
def toDaily3 (m : List (List (List EFloat))) : List (List (List EFloat)) :=
  m.map (List.map (List.map convertMonthlyToDaily))

/-- Lines 118-131, `add_variable(ds, data_vars, var_name_ds, new_var)`: only
if `var_name_ds` is among `ds.variables` is the new variable recorded, with
the dims/coords of (a deep copy of) `ds[var_name_ds]` and the new data;
otherwise the candidate is silently dropped.  `ds` itself is only read. -/
def add_variable (ds : Dataset) (dataVars : List (String × DataVar))
    (var_name_ds : String) (newData : VarData) : List (String × DataVar) :=
  match ds.lookupVar var_name_ds with
  | some old => upsert dataVars var_name_ds ⟨old.dims, old.shape, newData⟩
  | none => dataVars

/-- Lines 143-159: per-pool stock Delta-14C series. -/
def stockJobs (poolNames : List String) (mr mr14 : MrView) :
    List (String × VarData) :=
  (List.range poolNames.length).map (fun p =>
    (poolNames.getD p "",
     .floats (List.zipWith F_Delta_14C (colD mr.soln p) (colD mr14.soln p))))

/-- Lines 162-195: external-input Delta-14C series (`NPP_to_<pool>`). -/
def usJobs (poolNames : List String) (mr mr14 : MrView) :
    List (String × VarData) :=
  let us := toDaily (fluxMonthly poolNames.length mr.timesLen mr.external_input_vector)
  let us14 := toDaily (fluxMonthly poolNames.length mr.timesLen mr14.external_input_vector)
  (List.range poolNames.length).map (fun p =>
    ("NPP_to_" ++ poolNames.getD p "",
     .floats (List.zipWith F_Delta_14C (colD us p) (colD us14 p))))

/-- `a[:, to, from]` extraction from a 3-d array. -/
def colD3 (m : List (List (List EFloat))) (pto pfrom : ℕ) : List EFloat :=
  m.map (fun M => (M.getD pto []).getD pfrom EFloat.nan)

/-- Lines 198-239: internal-transfer Delta-14C series (`<from>_to_<to>` for
every ordered pool pair, reading `Fs[:, to, from]`). -/
def fsJobs (poolNames : List String) (mr mr14 : MrView) :
    List (String × VarData) :=
  let Fs := toDaily3 (fluxMonthly3 poolNames.length mr.timesLen mr.internal_flux_matrix)
  let Fs14 := toDaily3 (fluxMonthly3 poolNames.length mr.timesLen mr14.internal_flux_matrix)
  (List.range poolNames.length).flatMap (fun pfrom =>
    (List.range poolNames.length).map (fun pto =>
      (poolNames.getD pfrom "" ++ "_to_" ++ poolNames.getD pto "",
       .floats (List.zipWith F_Delta_14C (colD3 Fs pto pfrom) (colD3 Fs14 pto pfrom)))))

/-- Lines 242-276: external-output Delta-14C series (`<pool>_to_RH`). -/
def rsJobs (poolNames : List String) (mr mr14 : MrView) :
    List (String × VarData) :=
  let rs := toDaily (fluxMonthly poolNames.length mr.timesLen mr.external_output_vector)
  let rs14 := toDaily (fluxMonthly poolNames.length mr.timesLen mr14.external_output_vector)
  (List.range poolNames.length).map (fun p =>
    (poolNames.getD p "" ++ "_to_RH",
     .floats (List.zipWith F_Delta_14C (colD rs p) (colD rs14 p))))

/-- Lines 134-285, `create_Delta_14C_dataset(mdo, ds, mr, mr_14C)`: builds a
fresh `data_vars` dict by running the four candidate loops through
`add_variable`, then returns a new `xr.Dataset` with those variables and the
coordinates of `ds`.  `ds` is only read. -/
def create_Delta_14C_dataset (poolNames : List String) (ds : Dataset)
    (mr mr14 : MrView) : Dataset :=
  let jobs := stockJobs poolNames mr mr14 ++ usJobs poolNames mr mr14
      ++ fsJobs poolNames mr mr14 ++ rsJobs poolNames mr mr14
  { dims := ds.dims,
    dataVars := jobs.foldl (fun acc j => add_variable ds acc j.1 j.2) [],
    coordVars := ds.coordVars,
    ensShape := ds.ensShape }

/-! ### Top level: `load_Delta_14C_dataset` (lines 402-482)

Mutation of the caller-supplied dataset is made explicit: the function
returns the final state of its `ds` argument alongside the result, and a
result of `Except.error` models an exception reaching the caller. -/

/-- Line 414: `np.ndarray(dtype=float, shape=(0,0,0))` over
`('ens','lat','lon')`. -/
def emptyVarFloat : DataVar := ⟨["ens", "lat", "lon"], [0, 0, 0], .floats []⟩

/-- Line 420: the same empty shape with string dtype for `log`. -/
def emptyVarStr : DataVar := ⟨["ens", "lat", "lon"], [0, 0, 0], .strs []⟩

/-- Lines 412-423, the empty-batch branch: three assignments into the
caller-supplied `ds` itself, then `return ds`.  Each assignment can raise
an xarray dimension-conflict `ValueError`, in which case the exception
escapes with `ds` in its state at that point. -/
def emptyBatchBranch (ds : Dataset) : Dataset × Except PyErr Dataset :=
  match ds.setVar "max_abs_err" emptyVarFloat with
  | .error e => (ds, .error e)
  | .ok ds1 =>
    match ds1.setVar "max_rel_err" emptyVarFloat with
    | .error e => (ds1, .error e)
    | .ok ds2 =>
      match ds2.setVar "log" emptyVarStr with
      | .error e => (ds2, .error e)
      | .ok ds3 => (ds3, .ok ds3)

/-- Numpy `np.nan * val` on a variable payload (string data variables do not
occur in the CARDAMOM input datasets; the only string variable, `log`, is
created by this module and never present in its input). -/
def nanVarData : VarData → VarData
  | .floats l => .floats (l.map (fun _ => EFloat.nan))
  | .strs l => .strs l

/-- Lines 471-474: `ds.copy(data=data_vars)` with every data variable
replaced by its `np.nan * val` version. -/
def nannedDataset (ds : Dataset) : Dataset :=
  { ds with dataVars :=
      ds.dataVars.map (fun kv => (kv.1, ⟨kv.2.dims, kv.2.shape, nanVarData kv.2.data⟩)) }

/-- Lines 470-477, the `except DMRError` body: rebuild every data variable
(except a hypothetical `time` entry) as `np.nan * val`, `ds.copy(data=...)`,
then set both error metrics to scalar `np.nan`.  `Dataset.copy(data=...)`
requires `data` to cover exactly the data variables, so a dataset carrying
`time` as a *data* variable (it is a coordinate in practice) would make the
copy itself raise. -/
def failureDataset (ds : Dataset) : Except PyErr Dataset :=
  if "time" ∈ ds.dataVars.map Prod.fst then
    .error (.valueError ("Data must contain all variables in original dataset"))
  else
    match (nannedDataset ds).setVar "max_abs_err" ⟨[], [], .floats [.nan]⟩ with
    | .error e => .error e
    | .ok d1 => d1.setVar "max_rel_err" ⟨[], [], .floats [.nan]⟩

/-- Lines 426-465, the `try` block: build the model run for the requested
method (external reconstruction, `DMRError` on failure), derive the 14C
companion (`load_dmr_14C` / `load_smr_14C`, uncaught `LinAlgError` on a
singular equilibrium solve), assemble the Delta-14C dataset, and attach the
scalar error metrics `np.max(abs_err.data)` / `np.max(rel_err.data)`
(modelled as the scalars the reconstruction reports). -/
def tryBlock {np : ℕ}
    (createDMRrun : Dataset → Except PyErr (Dmr np × EFloat × EFloat))
    (createSMRrun : Dataset → Except PyErr (Smr np × EFloat × EFloat))
    (dmrView : Dmr np → MrView) (dmr14View : Dmr14 np → MrView)
    (smrView : Smr np → MrView) (smr14View : Smr14 np → MrView)
    (Fatm : ℚ → EFloat) (expNegLamDt : ℚ)
    (ds : Dataset) (method : String) : Except PyErr Dataset :=
  let built : Except PyErr (MrView × MrView × EFloat × EFloat) :=
    if method = "discrete" then
      match createDMRrun ds with
      | .error e => .error e
      | .ok (dmr, absErr, relErr) =>
        match load_dmr_14C Fatm expNegLamDt dmr with
        | .error e => .error e
        | .ok d14 => .ok (dmrView dmr, dmr14View d14, absErr, relErr)
    else
      match createSMRrun ds with
      | .error e => .error e
      | .ok (smr, absErr, relErr) =>
        match load_smr_14C Fatm smr with
        | .error e => .error e
        | .ok s14 => .ok (smrView smr, smr14View s14, absErr, relErr)
  match built with
  | .error e => .error e
  | .ok (v12, v14, absErr, relErr) =>
    let out := create_Delta_14C_dataset load_model_structure_pool_names ds v12 v14
    match out.setVar "max_abs_err" ⟨[], [], .floats [absErr]⟩ with
    | .error e => .error e
    | .ok o1 =>
      match o1.setVar "max_rel_err" ⟨[], [], .floats [relErr]⟩ with
      | .error e => .error e
      | .ok o2 => .ok o2

/-- The `try`/`except DMRError` pair (lines 427-477): on success the
assembled dataset with an empty log message, on a caught `DMRError` the
degraded all-`nan` dataset with the error message, any other exception
re-escapes. -/
def handledResult {np : ℕ}
    (createDMRrun : Dataset → Except PyErr (Dmr np × EFloat × EFloat))
    (createSMRrun : Dataset → Except PyErr (Smr np × EFloat × EFloat))
    (dmrView : Dmr np → MrView) (dmr14View : Dmr14 np → MrView)
    (smrView : Smr np → MrView) (smr14View : Smr14 np → MrView)
    (Fatm : ℚ → EFloat) (expNegLamDt : ℚ)
    (ds : Dataset) (method : String) : Except PyErr (Dataset × String) :=
  match tryBlock createDMRrun createSMRrun dmrView dmr14View smrView
      smr14View Fatm expNegLamDt ds method with
  | .ok out => .ok (out, "")
  | .error (.dmrError m) =>
    match failureDataset ds with
    | .ok d => .ok (d, m)
    | .error e => .error e
  | .error e => .error e

/-- The non-empty-batch body: the handled `try` block followed by line 479,
`ds_Delta_14C['log'] = log`. -/
def mainBody {np : ℕ}
    (createDMRrun : Dataset → Except PyErr (Dmr np × EFloat × EFloat))
    (createSMRrun : Dataset → Except PyErr (Smr np × EFloat × EFloat))
    (dmrView : Dmr np → MrView) (dmr14View : Dmr14 np → MrView)
    (smrView : Smr np → MrView) (smr14View : Smr14 np → MrView)
    (Fatm : ℚ → EFloat) (expNegLamDt : ℚ)
    (ds : Dataset) (method : String) : Except PyErr Dataset :=
  match handledResult createDMRrun createSMRrun dmrView dmr14View smrView
      smr14View Fatm expNegLamDt ds method with
  | .error e => .error e
  | .ok (out, lg) =>
    match out.setVar "log" ⟨[], [], .strs [lg]⟩ with
    | .error e => .error e
    | .ok outF => .ok outF

/-- Lines 402-482, `load_Delta_14C_dataset(ds, method)`:
* reject any method other than `'discrete'`/`'continuous'` with a
  `ValueError` before touching the data;
* if `ds.ens.values.shape == (0,)`, run the empty-batch branch, which writes
  into `ds` itself;
* otherwise run the `try` block; `except DMRError` degrades to the
  all-`nan` dataset with the error message, any other exception escapes;
  finally `ds_Delta_14C['log']` is set to the message (`''` on success).
The first component of the result is the final state of the caller-supplied
dataset (only the empty-batch branch writes into it), the second the
returned value or escaped exception. -/
def load_Delta_14C_dataset {np : ℕ}
    (createDMRrun : Dataset → Except PyErr (Dmr np × EFloat × EFloat))
    (createSMRrun : Dataset → Except PyErr (Smr np × EFloat × EFloat))
    (dmrView : Dmr np → MrView) (dmr14View : Dmr14 np → MrView)
    (smrView : Smr np → MrView) (smr14View : Smr14 np → MrView)
    (Fatm : ℚ → EFloat) (expNegLamDt : ℚ)
    (ds : Dataset) (method : String) : Dataset × Except PyErr Dataset :=
  if ¬(method = "discrete" ∨ method = "continuous") then
    (ds, .error (.valueError ("method must be either 'discrete' or 'continuous'")))
  else if ds.ensShape = [0] then
    emptyBatchBranch ds
  else
    (ds, mainBody createDMRrun createSMRrun dmrView dmr14View smrView
      smr14View Fatm expNegLamDt ds method)

/-- The scalar `np.nan` variable the failure path assigns to both error
metrics. -/
def nanScalarVar : DataVar := ⟨[], [], .floats [.nan]⟩

/-- The scalar string variable `ds_Delta_14C['log'] = log`. -/
def logScalarVar (m : String) : DataVar := ⟨[], [], .strs [m]⟩

/-- The dataset state after the empty-batch branch succeeds: the caller's
dataset with the three empty `(0,0,0)` result fields appended (and the
`ens`/`lat`/`lon` dimensions registered). -/
def emptyResultDataset (ds : Dataset) : Dataset :=
  { ds with
    dims := mergeDims ds.dims [("ens", 0), ("lat", 0), ("lon", 0)],
    dataVars := ds.dataVars ++ [("max_abs_err", emptyVarFloat),
      ("max_rel_err", emptyVarFloat), ("log", emptyVarStr)] }

/-- The dataset state after the `DMRError` handler has set both error
metrics: the all-`nan` copy with the two scalar `nan` metrics appended. -/
def failureMetricsDataset (ds : Dataset) : Dataset :=
  { nannedDataset ds with
    dataVars := (nannedDataset ds).dataVars
      ++ [("max_abs_err", nanScalarVar), ("max_rel_err", nanScalarVar)] }

/-- The dataset the `DMRError` handler returns (after line 479 adds the
log): every data variable of the input replaced by its all-`nan` version,
plus scalar `nan` error metrics and the scalar `log` message. -/
def failureResultDataset (ds : Dataset) (m : String) : Dataset :=
  { failureMetricsDataset ds with
    dataVars := (failureMetricsDataset ds).dataVars ++ [("log", logScalarVar m)] }

/-! ### Concrete fixtures used by counterexamples and witnesses -/

/-- A trivial realized model-run view. -/
def mrViewTrivial : MrView := ⟨0, [], [], [], []⟩

/-- A small non-empty-batch dataset: one data variable, `time` coordinate,
scalar `ens` coordinate (as after `isel(ens=0)`). -/
def dsFix : Dataset :=
  { dims := [("time", 2)],
    dataVars := [("Labile", ⟨["time"], [2], .floats [.fin 1, .fin 2]⟩)],
    coordVars := [("time", ⟨["time"], [2], .floats [.fin 0, .fin 1]⟩)],
    ensShape := [] }

/-- An atmospheric interpolant that returns `-inf` (as an extrapolated
interpolant with infinite table entries would). -/
def FatmNeg : ℚ → EFloat := fun _ => .neginf

/-- A one-pool, one-step discrete model run with unit input. -/
def dmrNeg : Dmr 1 :=
  { times := [0, daysPerMonth],
    Bs := [Matrix.of fun _ _ => (1 : ℚ) / 2],
    external_input_vector := [fun _ => .fin 1] }

/-- A one-pool discrete model run whose 14C equilibrium matrix
`I - B0_14C` is singular once the decay factor `1/2` is applied
(`B = 2`, `B0_14C = 2 * (1/2) = 1`). -/
def dmrSingular : Dmr 1 :=
  { times := [0, daysPerMonth],
    Bs := [Matrix.of fun _ _ => (2 : ℚ)],
    external_input_vector := [fun _ => .fin 1] }

/-- A reconstruction stage returning `dmrSingular` with zero error metrics. -/
def createDMRrunSingular : Dataset → Except PyErr (Dmr 1 × EFloat × EFloat) :=
  fun _ => .ok (dmrSingular, .fin 0, .fin 0)

/-- A reconstruction stage failing with a `DMRError`. -/
def createDMRrunFail : Dataset → Except PyErr (Dmr 1 × EFloat × EFloat) :=
  fun _ => .error (.dmrError ("reconstruction failed"))

/-- An `SMR` reconstruction stage failing with a `DMRError`. -/
def createSMRrunFail : Dataset → Except PyErr (Smr 1 × EFloat × EFloat) :=
  fun _ => .error (.dmrError ("reconstruction failed"))

/-- A one-pool continuous model run with constant `B(t) = [[-1/100]]` (per
day) and constant unit input, over one monthly step. -/
def smrFix : Smr 1 :=
  { times := [0, daysPerMonth],
    B_func := fun _ => Matrix.of fun _ _ => -(1 : ℚ) / 100,
    u_func := fun _ _ => 1 }

/-- An empty-batch dataset whose `lat`/`lon` dimensions are also empty. -/
def dsEmpty : Dataset :=
  { dims := [("ens", 0), ("lat", 0), ("lon", 0), ("time", 2)],
    dataVars := [("Labile", ⟨["ens", "lat", "lon", "time"], [0, 0, 0, 2], .floats []⟩)],
    coordVars := [("time", ⟨["time"], [2], .floats [.fin 0, .fin 1]⟩)],
    ensShape := [0] }

/-- An empty-batch dataset with a nonzero `lat` dimension: `ens` has length
zero, but `lat` has length 2. -/
def dsEmptyLat : Dataset :=
  { dims := [("ens", 0), ("lat", 2), ("lon", 1), ("time", 2)],
    dataVars := [("Labile", ⟨["ens", "lat", "lon", "time"], [0, 2, 1, 2], .floats []⟩)],
    coordVars := [("time", ⟨["time"], [2], .floats [.fin 0, .fin 1]⟩)],
    ensShape := [0] }

/-- Trivial solver views for the one-pool fixtures. -/
def vDTriv : Dmr 1 → MrView := fun _ => mrViewTrivial

/-- Trivial solver views for the one-pool fixtures. -/
def v14DTriv : Dmr14 1 → MrView := fun _ => mrViewTrivial

/-- Trivial solver views for the one-pool fixtures. -/
def vSTriv : Smr 1 → MrView := fun _ => mrViewTrivial

/-- Trivial solver views for the one-pool fixtures. -/
def v14STriv : Smr14 1 → MrView := fun _ => mrViewTrivial

/-- A constant-zero atmospheric interpolant. -/
def FatmZero : ℚ → EFloat := fun _ => .fin 0

/-! ## Rewrite lemmas for the extended-float operations -/

namespace EFloat

@[simp] lemma nan_div (x : EFloat) : nan / x = nan := by cases x <;> rfl
@[simp] lemma div_nan (x : EFloat) : x / nan = nan := by cases x <;> rfl
@[simp] lemma fin_div_fin (a b : ℚ) : fin a / fin b =
    if b = 0 then (if a = 0 then nan else if 0 < a then posinf else neginf)
    else fin (a / b) := rfl
@[simp] lemma fin_div_posinf (a : ℚ) : fin a / posinf = fin 0 := rfl
@[simp] lemma fin_div_neginf (a : ℚ) : fin a / neginf = fin 0 := rfl
@[simp] lemma posinf_div_fin (b : ℚ) : posinf / fin b =
    if 0 ≤ b then posinf else neginf := rfl
@[simp] lemma neginf_div_fin (b : ℚ) : neginf / fin b =
    if 0 ≤ b then neginf else posinf := rfl

@[simp] lemma nan_mul (x : EFloat) : nan * x = nan := by cases x <;> rfl
@[simp] lemma mul_nan (x : EFloat) : x * nan = nan := by cases x <;> rfl
@[simp] lemma fin_mul_fin (a b : ℚ) : fin a * fin b = fin (a * b) := rfl
@[simp] lemma posinf_mul_fin (b : ℚ) : posinf * fin b =
    if 0 < b then posinf else if b < 0 then neginf else nan := rfl
@[simp] lemma fin_mul_posinf (a : ℚ) : fin a * posinf =
    if 0 < a then posinf else if a < 0 then neginf else nan := rfl
@[simp] lemma fin_mul_neginf (a : ℚ) : fin a * neginf =
    if 0 < a then neginf else if a < 0 then posinf else nan := rfl
@[simp] lemma neginf_mul_fin (b : ℚ) : neginf * fin b =
    if 0 < b then neginf else if b < 0 then posinf else nan := rfl

@[simp] lemma nan_add (x : EFloat) : nan + x = nan := by cases x <;> rfl
@[simp] lemma add_nan (x : EFloat) : x + nan = nan := by cases x <;> rfl
@[simp] lemma fin_add_fin (a b : ℚ) : fin a + fin b = fin (a + b) := rfl
@[simp] lemma fin_add_posinf (a : ℚ) : fin a + posinf = posinf := rfl
@[simp] lemma fin_add_neginf (a : ℚ) : fin a + neginf = neginf := rfl
@[simp] lemma posinf_add_fin (a : ℚ) : posinf + fin a = posinf := rfl
@[simp] lemma neginf_add_fin (a : ℚ) : neginf + fin a = neginf := rfl

@[simp] lemma fin_sub_fin (a b : ℚ) : fin a - fin b = fin (a - b) := by
  show add (fin a) (neg (fin b)) = _
  simp [add, neg, sub_eq_add_neg]
@[simp] lemma posinf_sub_fin (a : ℚ) : posinf - fin a = posinf := rfl
@[simp] lemma neginf_sub_fin (a : ℚ) : neginf - fin a = neginf := rfl
@[simp] lemma nan_sub (x : EFloat) : nan - x = nan := by cases x <;> rfl
@[simp] lemma sub_nan (x : EFloat) : x - nan = nan := by cases x <;> rfl

end EFloat

/-! ## Basic numeric facts -/

lemma alpha_pos : (0 : ℚ) < alpha := by norm_num [alpha]

lemma alpha_ne_zero : alpha ≠ 0 := alpha_pos.ne.symm

lemma daysPerMonth_pos : (0 : ℚ) < daysPerMonth := by norm_num [daysPerMonth]

lemma lowestFloat_ne_zero : lowestFloat ≠ 0 := by
  norm_num [lowestFloat]

/-! ## Claim C7

"The Δ¹⁴C diagnostic applied to stocks and to every flux series computes
(C14/C12/alpha - 1) * 1000 elementwise, and the result is NaN (missing-value)
at every entry where C12 is zero or missing." -/

/-- C7 counterexample: at an entry with `C12 = 0` and `C14 = 1` the
diagnostic produces `+inf` (numpy `1/0.0 = inf`), not NaN, so the claim as
stated is false. -/
theorem C7_counterexample :
    F_Delta_14C (.fin 0) (.fin 1) = .posinf ∧ EFloat.posinf ≠ EFloat.nan := by
  refine ⟨?_, by simp⟩
  norm_num [F_Delta_14C, alpha_pos.le]

/-- C7 (amended): the diagnostic computes `(C14/C12/alpha - 1) * 1000`
elementwise; the result is NaN where `C12` is missing, and where `C12` is
zero with `C14` zero or missing; where `C12` is zero and `C14` is a nonzero
finite value the result is a signed infinity, not NaN. -/
theorem C7_theorem :
    (∀ x : EFloat, F_Delta_14C .nan x = .nan) ∧
    F_Delta_14C (.fin 0) (.fin 0) = .nan ∧
    F_Delta_14C (.fin 0) .nan = .nan ∧
    (∀ q : ℚ, 0 < q → F_Delta_14C (.fin 0) (.fin q) = .posinf) ∧
    (∀ q : ℚ, q < 0 → F_Delta_14C (.fin 0) (.fin q) = .neginf) ∧
    (∀ c12 c14 : ℚ, c12 ≠ 0 →
      F_Delta_14C (.fin c12) (.fin c14) = .fin ((c14 / c12 / alpha - 1) * 1000)) := by
  refine ⟨fun x => by cases x <;> simp [F_Delta_14C],
    by norm_num [F_Delta_14C], by simp [F_Delta_14C], ?_, ?_, ?_⟩
  · intro q hq
    simp [F_Delta_14C, hq, hq.ne.symm, alpha_pos.le]
  · intro q hq
    simp [F_Delta_14C, hq, hq.ne, hq.not_lt, alpha_pos.le]
  · intro c12 c14 h
    simp [F_Delta_14C, h, alpha_ne_zero]

/-- C7 witness: the amended theorem applied at concrete entries. -/
theorem C7_witness :
    ((0 : ℚ) < 1 ∧ F_Delta_14C (.fin 0) (.fin 1) = .posinf) ∧
    ((-1 : ℚ) < 0 ∧ F_Delta_14C (.fin 0) (.fin (-1)) = .neginf) ∧
    ((2 : ℚ) ≠ 0 ∧ F_Delta_14C (.fin 2) (.fin 3) = .fin ((3 / 2 / alpha - 1) * 1000)) :=
  ⟨⟨one_pos, C7_theorem.2.2.2.1 1 one_pos⟩,
   ⟨by norm_num, C7_theorem.2.2.2.2.1 (-1) (by norm_num)⟩,
   ⟨two_ne_zero, C7_theorem.2.2.2.2.2 2 3 two_ne_zero⟩⟩

/-! ## Claim C8

"Round-trip of the Δ¹⁴C diagnostic: for every C12 value for which
C14 = alpha * C12 exactly, the computed Delta14C equals 0, for all entries
of stocks and of every flux series." -/

/-- C8 counterexample: at `C12 = 0` the premise `C14 = alpha * C12` gives
`C14 = 0`, and the diagnostic is `0/0 = nan`, not `0`; so the round-trip
fails for the zero entry. -/
theorem C8_counterexample :
    F_Delta_14C (.fin 0) (.fin alpha * .fin 0) = .nan ∧ EFloat.nan ≠ .fin 0 := by
  constructor
  · norm_num [F_Delta_14C]
  · simp

/-- C8 (amended): for every finite nonzero `C12`, if `C14 = alpha * C12`
exactly then the diagnostic returns exactly `0`. -/
theorem C8_theorem (c12 : ℚ) (h : c12 ≠ 0) :
    F_Delta_14C (.fin c12) (.fin alpha * .fin c12) = .fin 0 := by
  have key : alpha * c12 / c12 / alpha = 1 := by
    rw [mul_div_assoc, div_self h, mul_one, div_self alpha_ne_zero]
  simp [F_Delta_14C, h, alpha_ne_zero, key]

/-- C8 witness: the amended round-trip at `C12 = 1`. -/
theorem C8_witness :
    (1 : ℚ) ≠ 0 ∧ F_Delta_14C (.fin 1) (.fin alpha * .fin 1) = .fin 0 :=
  ⟨one_ne_zero, C8_theorem 1 one_ne_zero⟩

/-! ## Claim C4

"For every mode argument other than the strings 'discrete' and 'continuous',
load_Delta_14C_dataset raises an InvalidArgument-kind error (ValueError)
before performing any computation on the dataset, and this error is not
caught by the top-level handler but surfaces to the caller." -/

/-- C4: any method other than `'discrete'`/`'continuous'` makes the function
raise `ValueError` immediately: the result is the untouched dataset paired
with the escaped exception, independent of every pipeline stage (so no
computation was performed) and not routed through the `DMRError` handler. -/
theorem C4_theorem {np : ℕ}
    (cD : Dataset → Except PyErr (Dmr np × EFloat × EFloat))
    (cS : Dataset → Except PyErr (Smr np × EFloat × EFloat))
    (vD : Dmr np → MrView) (v14D : Dmr14 np → MrView)
    (vS : Smr np → MrView) (v14S : Smr14 np → MrView)
    (Fatm : ℚ → EFloat) (e : ℚ) (ds : Dataset) (method : String)
    (h1 : method ≠ "discrete") (h2 : method ≠ "continuous") :
    load_Delta_14C_dataset cD cS vD v14D vS v14S Fatm e ds method =
      (ds, .error (.valueError ("method must be either 'discrete' or 'continuous'"))) := by
  unfold load_Delta_14C_dataset
  rw [if_pos (not_or.mpr ⟨h1, h2⟩)]

/-- C4 witness: the theorem applied at the concrete method `'foo'`. -/
theorem C4_witness :
    ("foo" : String) ≠ "discrete" ∧ ("foo" : String) ≠ "continuous" ∧
    load_Delta_14C_dataset createDMRrunFail createSMRrunFail
      (fun _ => mrViewTrivial) (fun _ => mrViewTrivial) (fun _ => mrViewTrivial)
      (fun _ => mrViewTrivial) FatmNeg 1 dsFix ("foo") =
      (dsFix, .error (.valueError ("method must be either 'discrete' or 'continuous'"))) :=
  ⟨by decide, by decide,
   C4_theorem _ _ _ _ _ _ _ _ _ _ (by decide) (by decide)⟩

/-! ## Claim C5

"For every time step t, the 14C external input constructed for the discrete
companion system equals alpha * u12(t) * (1 + ForcingCurve(t)/1000)
elementwise, where ForcingCurve is the interpolated atmospheric Δ¹⁴C at
calendar time 2001 + (15+t)/365.25, and every entry of the result that is
positive or negative infinity is replaced by zero." -/

/-- C5 counterexample: with a forcing value of `-inf`, the pre-replacement
entry is `-inf`, and `np.nan_to_num(..., posinf=0)` replaces it by the most
negative finite double, not by zero. -/
theorem C5_counterexample :
    EFloat.fin alpha * EFloat.fin 1 *
        (EFloat.fin 1 + EFloat.fin (1 / 1000) * FatmNeg (t_conv 0)) = .neginf ∧
    us_14C FatmNeg dmrNeg = [fun _ => .fin lowestFloat] ∧
    EFloat.fin lowestFloat ≠ EFloat.fin 0 := by
  have h1 : EFloat.fin alpha * EFloat.fin 1 *
      (EFloat.fin 1 + EFloat.fin (1 / 1000) * FatmNeg (t_conv 0)) = .neginf := by
    norm_num [FatmNeg, alpha_pos]
  refine ⟨h1, ?_, ?_⟩
  · simp only [us_14C, dmrNeg, List.dropLast, List.zip, List.zipWith, List.map]
    congr 1
    funext p
    rw [h1]
    rfl
  · simp only [ne_eq, EFloat.fin.injEq]
    norm_num [lowestFloat]

/-- C5 (amended): each entry of the constructed 14C input is
`nan_to_num(alpha * u12[k] * (1 + Fatm(t_conv(times[k]))/1000))`, where
`nan_to_num` maps `+inf` to `0`, `nan` to `0`, and `-inf` to the most
negative finite double `-(2^1024 - 2^971)` — not to zero. -/
theorem C5_theorem {np : ℕ} (Fatm : ℚ → EFloat) (dmr : Dmr np) (k : ℕ)
    (hk1 : k < dmr.external_input_vector.length)
    (hk2 : k < dmr.times.length - 1) :
    (us_14C Fatm dmr).getD k (fun _ => .nan) =
      (fun p => nanToNum (EFloat.fin alpha *
        dmr.external_input_vector.getD k (fun _ => .nan) p *
        (EFloat.fin 1 + EFloat.fin (1 / 1000) * Fatm (t_conv (dmr.times.getD k 0))))) ∧
    nanToNum .posinf = .fin 0 ∧ nanToNum .nan = .fin 0 ∧
    nanToNum .neginf = .fin lowestFloat := by
  refine ⟨?_, rfl, rfl, rfl⟩
  have hd : k < dmr.times.dropLast.length := by
    rw [List.length_dropLast]; exact hk2
  have hz : k < (dmr.external_input_vector.zip dmr.times.dropLast).length := by
    rw [List.length_zip]; exact lt_min hk1 hd
  have hm : k < (us_14C Fatm dmr).length := by
    simp only [us_14C, List.length_map]; exact hz
  have ht : k < dmr.times.length := lt_of_lt_of_le hk2 (Nat.sub_le _ _)
  rw [List.getD_eq_getElem _ _ hm, List.getD_eq_getElem _ _ hk1,
    List.getD_eq_getElem _ _ ht]
  simp only [us_14C, List.getElem_map, List.getElem_zip, List.getElem_dropLast]

/-- C5 witness: the amended theorem applied to the concrete fixture run. -/
theorem C5_witness :
    0 < dmrNeg.external_input_vector.length ∧ 0 < dmrNeg.times.length - 1 ∧
    (us_14C FatmNeg dmrNeg).getD 0 (fun _ => .nan) =
      (fun p => nanToNum (EFloat.fin alpha *
        dmrNeg.external_input_vector.getD 0 (fun _ => .nan) p *
        (EFloat.fin 1 + EFloat.fin (1 / 1000) * FatmNeg (t_conv (dmrNeg.times.getD 0 0))))) :=
  ⟨by simp [dmrNeg], by simp [dmrNeg],
   (C5_theorem FatmNeg dmrNeg 0 (by simp [dmrNeg]) (by simp [dmrNeg])).1⟩

/-! ## Claim C6

"The 14C initial condition of the companion system is the solution x0 of
(I - B0_14) * x0 = mean(u14), where B0_14 is, in discrete mode, the mean
over all time steps of B_k * exp(-lambda*step_days) * I, and in continuous
mode, the mean over the time points of B(t) - lambda*I (the continuous
variant solving -B0_14 * x0 = mean of the 14C input function over the time
points)."

The discrete formula and both solve set-ups match the code, but in
continuous mode the code subtracts `lamda * 365.25/12` (the decay constant
scaled by the step length in days) from the per-day rate matrix, not
`lamda` as the claim and spec state.  The spec declares `lambda` to be the
decay rate per day and the discrete branch already applies the full-step
factor `exp(-lambda*step_days)`, so adding `-lambda*step_days` to a per-day
rate is a unit slip in the code: the two modes, meant to agree (spec
section 8 item 5 and the comparison in the module's `__main__` block),
disagree by the factor `365.25/12 ≈ 30.44` in the decay term. -/

/-- C6: on the concrete one-pool continuous run `smrFix` with
`B(t) = [[-1/100]]`, the code's equilibrium matrix carries the decay term
`lamda * 365.25/12` while the claimed matrix carries `lamda`; the two
matrices differ. -/
theorem C6_theorem :
    B0_14C_smr smrFix 0 0 = -(1 / 100) - lamda * daysPerMonth ∧
    B0_14C_smr_spec smrFix 0 0 = -(1 / 100) - lamda ∧
    B0_14C_smr smrFix ≠ B0_14C_smr_spec smrFix := by
  have hdrop : smrFix.times.dropLast = [0] := rfl
  have h1 : B0_14C_smr smrFix 0 0 = -(1 / 100) - lamda * daysPerMonth := by
    simp [B0_14C_smr, matMean, hdrop, smrFix, Matrix.add_apply,
      Matrix.smul_apply, Matrix.one_apply_eq, smul_eq_mul]
    ring
  have h2 : B0_14C_smr_spec smrFix 0 0 = -(1 / 100) - lamda := by
    simp [B0_14C_smr_spec, matMean, hdrop, smrFix, Matrix.add_apply,
      Matrix.smul_apply, Matrix.one_apply_eq, smul_eq_mul]
    ring
  refine ⟨h1, h2, fun heq => ?_⟩
  have h3 := congrFun (congrFun heq 0) 0
  rw [h1, h2] at h3
  have h4 : lamda * daysPerMonth = lamda := by linarith
  norm_num [lamda, daysPerMonth] at h4

/-! ## List and association-list helper lemmas -/

lemma getD_map_general {α β : Type} (f : α → β) (l : List α) (n : ℕ) (d : α) :
    (l.map f).getD n (f d) = f (l.getD n d) := by
  rw [List.getD_eq_getElem?_getD, List.getD_eq_getElem?_getD, List.getElem?_map]
  cases l[n]? <;> rfl

lemma lookup_isSome_iff {β : Type} (l : List (String × β)) (n : String) :
    (l.lookup n).isSome ↔ n ∈ l.map Prod.fst := by
  induction l with
  | nil => simp [List.lookup]
  | cons kv tl ih =>
    obtain ⟨k, v⟩ := kv
    by_cases h : n = k
    · simp [List.lookup, h]
    · have hbeq : (n == k) = false := beq_false_of_ne h
      simp [List.lookup, hbeq, ih, h]

lemma lookup_eq_none_iff {β : Type} (l : List (String × β)) (n : String) :
    l.lookup n = none ↔ n ∉ l.map Prod.fst := by
  rw [← lookup_isSome_iff]
  cases l.lookup n <;> simp

lemma lookupVar_isSome_iff (ds : Dataset) (n : String) :
    (ds.lookupVar n).isSome ↔ n ∈ ds.varNames := by
  unfold Dataset.lookupVar Dataset.varNames
  rw [List.map_append]
  cases h : ds.dataVars.lookup n with
  | some v =>
    have hm : n ∈ ds.dataVars.map Prod.fst := by
      rw [← lookup_isSome_iff, h]; rfl
    simp [List.mem_append, hm]
  | none =>
    have hm : n ∉ ds.dataVars.map Prod.fst := (lookup_eq_none_iff _ _).mp h
    simp [List.mem_append, hm, lookup_isSome_iff]

lemma upsert_keys_mem (l : List (String × DataVar)) (n : String) (v : DataVar)
    (x : String) :
    x ∈ (upsert l n v).map Prod.fst ↔ x ∈ l.map Prod.fst ∨ x = n := by
  unfold upsert
  split
  case isTrue h =>
    have hkeys : (l.map (fun kv => if kv.1 = n then (n, v) else kv)).map Prod.fst
        = l.map Prod.fst := by
      rw [List.map_map]
      apply List.map_congr_left
      intro kv _
      by_cases hk : kv.1 = n <;> simp [hk]
    rw [hkeys]
    constructor
    · exact Or.inl
    · rintro (hx | hx)
      · exact hx
      · rw [hx]; exact h
  case isFalse h => simp

lemma upsert_keys_fresh (l : List (String × DataVar)) (n : String) (v : DataVar)
    (h : n ∉ l.map Prod.fst) : upsert l n v = l ++ [(n, v)] := by
  unfold upsert
  rw [if_neg h]

lemma add_variable_keys_mem (ds : Dataset) (acc : List (String × DataVar))
    (j : String) (d : VarData) (x : String) :
    x ∈ (add_variable ds acc j d).map Prod.fst ↔
      x ∈ acc.map Prod.fst ∨ (x = j ∧ j ∈ ds.varNames) := by
  unfold add_variable
  cases h : ds.lookupVar j with
  | some old =>
    have hj : j ∈ ds.varNames := by
      rw [← lookupVar_isSome_iff, h]; rfl
    rw [upsert_keys_mem]
    simp [hj]
  | none =>
    have hj : j ∉ ds.varNames := by
      rw [← lookupVar_isSome_iff, h]; simp
    simp [hj]

lemma foldl_add_variable_keys_mem (ds : Dataset) (jobs : List (String × VarData))
    (acc : List (String × DataVar)) (x : String) :
    x ∈ (jobs.foldl (fun a j => add_variable ds a j.1 j.2) acc).map Prod.fst ↔
      x ∈ acc.map Prod.fst ∨ (x ∈ jobs.map Prod.fst ∧ x ∈ ds.varNames) := by
  induction jobs generalizing acc with
  | nil => simp
  | cons j js ih =>
    rw [List.foldl_cons, ih, add_variable_keys_mem, List.map_cons]
    constructor
    · rintro ((hx | ⟨hx, hj⟩) | ⟨hx, hds⟩)
      · exact Or.inl hx
      · exact Or.inr ⟨by rw [hx]; exact List.mem_cons_self _ _, by rw [hx]; exact hj⟩
      · exact Or.inr ⟨List.mem_cons_of_mem _ hx, hds⟩
    · rintro (hx | ⟨hx, hds⟩)
      · exact Or.inl (Or.inl hx)
      · rcases List.mem_cons.mp hx with hx1 | hx2
        · exact Or.inl (Or.inr ⟨hx1, by rw [← hx1]; exact hds⟩)
        · exact Or.inr ⟨hx2, hds⟩

lemma lookup_append {β : Type} (l1 l2 : List (String × β)) (k : String) :
    (l1 ++ l2).lookup k =
      match l1.lookup k with
      | some v => some v
      | none => l2.lookup k := by
  induction l1 with
  | nil => rfl
  | cons kv tl ih =>
    obtain ⟨a, b⟩ := kv
    by_cases h : k = a
    · simp [List.lookup, h]
    · simp [List.lookup, beq_false_of_ne h, ih]

/-! ## Behaviour of `Dataset.setVar` -/

lemma setVar_scalar (ds : Dataset) (name : String) (d : VarData) :
    ds.setVar name ⟨[], [], d⟩ =
      .ok { ds with dataVars := upsert ds.dataVars name ⟨[], [], d⟩ } := by
  have hok : dimsOk ds.dims (([] : List String).zip ([] : List ℕ)) :=
    fun p hp => absurd hp (List.not_mem_nil p)
  have hm : mergeDims ds.dims (([] : List String).zip ([] : List ℕ)) = ds.dims := by
    simp [mergeDims]
  unfold Dataset.setVar
  rw [if_pos hok, hm]

lemma dimsOk_empty3 (reg : List (String × ℕ))
    (he : reg.lookup "ens" = none ∨ reg.lookup "ens" = some 0)
    (hl : reg.lookup "lat" = none ∨ reg.lookup "lat" = some 0)
    (hlo : reg.lookup "lon" = none ∨ reg.lookup "lon" = some 0) :
    dimsOk reg [("ens", 0), ("lat", 0), ("lon", 0)] := by
  intro p hp
  simp only [List.mem_cons, List.not_mem_nil, or_false] at hp
  rcases hp with rfl | rfl | rfl
  · exact he
  · exact hl
  · exact hlo

lemma mergeDims_lookup3 (reg : List (String × ℕ))
    (he : reg.lookup "ens" = none ∨ reg.lookup "ens" = some 0)
    (hl : reg.lookup "lat" = none ∨ reg.lookup "lat" = some 0)
    (hlo : reg.lookup "lon" = none ∨ reg.lookup "lon" = some 0) :
    (mergeDims reg [("ens", 0), ("lat", 0), ("lon", 0)]).lookup "ens" = some 0 ∧
    (mergeDims reg [("ens", 0), ("lat", 0), ("lon", 0)]).lookup "lat" = some 0 ∧
    (mergeDims reg [("ens", 0), ("lat", 0), ("lon", 0)]).lookup "lon" = some 0 := by
  rcases he with he | he <;> rcases hl with hl | hl <;> rcases hlo with hlo | hlo <;>
    refine ⟨?_, ?_, ?_⟩ <;>
    simp [mergeDims, lookup_append, List.filter, he, hl, hlo, List.lookup]

lemma mergeDims_all_some (reg : List (String × ℕ))
    (he : reg.lookup "ens" = some 0) (hl : reg.lookup "lat" = some 0)
    (hlo : reg.lookup "lon" = some 0) :
    mergeDims reg [("ens", 0), ("lat", 0), ("lon", 0)] = reg := by
  simp [mergeDims, List.filter, he, hl, hlo]

lemma setVar_empty3 (ds : Dataset) (name : String) (v : DataVar)
    (hdims : v.dims = ["ens", "lat", "lon"]) (hshape : v.shape = [0, 0, 0])
    (he : ds.dims.lookup "ens" = none ∨ ds.dims.lookup "ens" = some 0)
    (hl : ds.dims.lookup "lat" = none ∨ ds.dims.lookup "lat" = some 0)
    (hlo : ds.dims.lookup "lon" = none ∨ ds.dims.lookup "lon" = some 0)
    (hfresh : name ∉ ds.dataVars.map Prod.fst) :
    ds.setVar name v = .ok { ds with
      dims := mergeDims ds.dims [("ens", 0), ("lat", 0), ("lon", 0)],
      dataVars := ds.dataVars ++ [(name, v)] } := by
  unfold Dataset.setVar
  rw [hdims, hshape,
    show (["ens", "lat", "lon"].zip [0, 0, 0] : List (String × ℕ))
      = [("ens", 0), ("lat", 0), ("lon", 0)] from rfl,
    if_pos (dimsOk_empty3 ds.dims he hl hlo), upsert_keys_fresh _ _ _ hfresh]

/-! ## Behaviour of the empty-batch branch -/

lemma emptyBatchBranch_spec (ds : Dataset)
    (he : ds.dims.lookup "ens" = none ∨ ds.dims.lookup "ens" = some 0)
    (hl : ds.dims.lookup "lat" = none ∨ ds.dims.lookup "lat" = some 0)
    (hlo : ds.dims.lookup "lon" = none ∨ ds.dims.lookup "lon" = some 0)
    (f1 : "max_abs_err" ∉ ds.dataVars.map Prod.fst)
    (f2 : "max_rel_err" ∉ ds.dataVars.map Prod.fst)
    (f3 : "log" ∉ ds.dataVars.map Prod.fst) :
    emptyBatchBranch ds = (emptyResultDataset ds, .ok (emptyResultDataset ds)) := by
  obtain ⟨g1, g2, g3⟩ := mergeDims_lookup3 ds.dims he hl hlo
  have h1 := setVar_empty3 ds ("max_abs_err") emptyVarFloat rfl rfl he hl hlo f1
  set ds1 : Dataset := { ds with
    dims := mergeDims ds.dims [("ens", 0), ("lat", 0), ("lon", 0)],
    dataVars := ds.dataVars ++ [("max_abs_err", emptyVarFloat)] } with hds1
  have f2' : "max_rel_err" ∉ ds1.dataVars.map Prod.fst := by
    simp only [hds1, List.map_append, List.mem_append, List.map_cons, List.map_nil,
      List.mem_cons, List.not_mem_nil, or_false]
    rintro (h | h)
    · exact f2 h
    · exact absurd h (by decide)
  have h2 := setVar_empty3 ds1 ("max_rel_err") emptyVarFloat rfl rfl
    (Or.inr g1) (Or.inr g2) (Or.inr g3) f2'
  rw [mergeDims_all_some _ g1 g2 g3] at h2
  set ds2 : Dataset := { ds1 with
    dataVars := ds1.dataVars ++ [("max_rel_err", emptyVarFloat)] } with hds2
  have f3' : "log" ∉ ds2.dataVars.map Prod.fst := by
    simp only [hds2, hds1, List.map_append, List.mem_append, List.map_cons, List.map_nil,
      List.mem_cons, List.not_mem_nil, or_false]
    rintro ((h | h) | h)
    · exact f3 h
    · exact absurd h (by decide)
    · exact absurd h (by decide)
  have h3 := setVar_empty3 ds2 ("log") emptyVarStr rfl rfl
    (Or.inr g1) (Or.inr g2) (Or.inr g3) f3'
  rw [mergeDims_all_some _ g1 g2 g3] at h3
  unfold emptyBatchBranch
  rw [h1]
  dsimp only
  rw [h2]
  dsimp only
  rw [h3]
  dsimp only
  have hfinal : ({ ds2 with dataVars := ds2.dataVars ++ [("log", emptyVarStr)] } : Dataset)
      = emptyResultDataset ds := by
    simp only [hds2, hds1, emptyResultDataset, List.append_assoc, List.cons_append,
      List.nil_append]
  rw [hfinal]

/-! ## Behaviour of the failure path -/

lemma map_nanned_keys (l : List (String × DataVar)) :
    (l.map (fun kv =>
      (kv.1, (⟨kv.2.dims, kv.2.shape, nanVarData kv.2.data⟩ : DataVar)))).map Prod.fst
      = l.map Prod.fst := by
  rw [List.map_map]
  rfl

lemma nannedDataset_keys (ds : Dataset) :
    (nannedDataset ds).dataVars.map Prod.fst = ds.dataVars.map Prod.fst := by
  simp only [nannedDataset]
  exact map_nanned_keys ds.dataVars

lemma failureDataset_spec (ds : Dataset)
    (htime : "time" ∉ ds.dataVars.map Prod.fst)
    (f1 : "max_abs_err" ∉ ds.dataVars.map Prod.fst)
    (f2 : "max_rel_err" ∉ ds.dataVars.map Prod.fst) :
    failureDataset ds = .ok (failureMetricsDataset ds) := by
  have f1n : "max_abs_err" ∉ (nannedDataset ds).dataVars.map Prod.fst := by
    rw [nannedDataset_keys]; exact f1
  have f2n : "max_rel_err" ∉
      ((nannedDataset ds).dataVars
        ++ [("max_abs_err", (⟨[], [], .floats [.nan]⟩ : DataVar))]).map Prod.fst := by
    rw [List.map_append, nannedDataset_keys]
    simp only [List.mem_append, List.map_cons, List.map_nil, List.mem_cons,
      List.not_mem_nil, or_false]
    rintro (h | h)
    · exact f2 h
    · exact absurd h (by decide)
  unfold failureDataset
  rw [if_neg htime, setVar_scalar, upsert_keys_fresh _ _ _ f1n]
  dsimp only
  rw [setVar_scalar]
  dsimp only
  rw [upsert_keys_fresh _ _ _ f2n]
  simp only [failureMetricsDataset, nanScalarVar, List.append_assoc, List.cons_append,
    List.nil_append]

/-! ## Reductions of the `try` block and of the main body -/

lemma tryBlock_discrete_dmrError {np : ℕ}
    (cD : Dataset → Except PyErr (Dmr np × EFloat × EFloat))
    (cS : Dataset → Except PyErr (Smr np × EFloat × EFloat))
    (vD : Dmr np → MrView) (v14D : Dmr14 np → MrView)
    (vS : Smr np → MrView) (v14S : Smr14 np → MrView)
    (Fatm : ℚ → EFloat) (e : ℚ) (ds : Dataset) (msg : String)
    (h : cD ds = .error (.dmrError msg)) :
    tryBlock cD cS vD v14D vS v14S Fatm e ds "discrete" = .error (.dmrError msg) := by
  simp only [tryBlock, eq_self_iff_true, if_true, h]

lemma tryBlock_continuous_dmrError {np : ℕ}
    (cD : Dataset → Except PyErr (Dmr np × EFloat × EFloat))
    (cS : Dataset → Except PyErr (Smr np × EFloat × EFloat))
    (vD : Dmr np → MrView) (v14D : Dmr14 np → MrView)
    (vS : Smr np → MrView) (v14S : Smr14 np → MrView)
    (Fatm : ℚ → EFloat) (e : ℚ) (ds : Dataset) (msg : String)
    (h : cS ds = .error (.dmrError msg)) :
    tryBlock cD cS vD v14D vS v14S Fatm e ds "continuous" = .error (.dmrError msg) := by
  have hne : ¬("continuous" : String) = "discrete" := by decide
  simp only [tryBlock, if_neg hne, h]

lemma tryBlock_discrete_err {np : ℕ}
    (cD : Dataset → Except PyErr (Dmr np × EFloat × EFloat))
    (cS : Dataset → Except PyErr (Smr np × EFloat × EFloat))
    (vD : Dmr np → MrView) (v14D : Dmr14 np → MrView)
    (vS : Smr np → MrView) (v14S : Smr14 np → MrView)
    (Fatm : ℚ → EFloat) (e : ℚ) (ds : Dataset)
    (dmr : Dmr np) (a r : EFloat) (pe : PyErr)
    (h1 : cD ds = .ok (dmr, a, r))
    (h2 : load_dmr_14C Fatm e dmr = .error pe) :
    tryBlock cD cS vD v14D vS v14S Fatm e ds "discrete" = .error pe := by
  simp only [tryBlock, eq_self_iff_true, if_true, h1, h2]

lemma tryBlock_continuous_err {np : ℕ}
    (cD : Dataset → Except PyErr (Dmr np × EFloat × EFloat))
    (cS : Dataset → Except PyErr (Smr np × EFloat × EFloat))
    (vD : Dmr np → MrView) (v14D : Dmr14 np → MrView)
    (vS : Smr np → MrView) (v14S : Smr14 np → MrView)
    (Fatm : ℚ → EFloat) (e : ℚ) (ds : Dataset)
    (smr : Smr np) (a r : EFloat) (pe : PyErr)
    (h1 : cS ds = .ok (smr, a, r))
    (h2 : load_smr_14C Fatm smr = .error pe) :
    tryBlock cD cS vD v14D vS v14S Fatm e ds "continuous" = .error pe := by
  have hne : ¬("continuous" : String) = "discrete" := by decide
  simp only [tryBlock, if_neg hne, h1, h2]

lemma mainBody_dmrError {np : ℕ}
    (cD : Dataset → Except PyErr (Dmr np × EFloat × EFloat))
    (cS : Dataset → Except PyErr (Smr np × EFloat × EFloat))
    (vD : Dmr np → MrView) (v14D : Dmr14 np → MrView)
    (vS : Smr np → MrView) (v14S : Smr14 np → MrView)
    (Fatm : ℚ → EFloat) (e : ℚ) (ds : Dataset) (method msg : String)
    (hb : tryBlock cD cS vD v14D vS v14S Fatm e ds method = .error (.dmrError msg))
    (htime : "time" ∉ ds.dataVars.map Prod.fst)
    (f1 : "max_abs_err" ∉ ds.dataVars.map Prod.fst)
    (f2 : "max_rel_err" ∉ ds.dataVars.map Prod.fst)
    (f3 : "log" ∉ ds.dataVars.map Prod.fst) :
    mainBody cD cS vD v14D vS v14S Fatm e ds method =
      .ok (failureResultDataset ds msg) := by
  have f3n : "log" ∉ (failureMetricsDataset ds).dataVars.map Prod.fst := by
    simp only [failureMetricsDataset]
    rw [List.map_append, nannedDataset_keys]
    simp only [List.mem_append, List.map_cons, List.map_nil, List.mem_cons,
      List.not_mem_nil, or_false]
    rintro (h | h | h)
    · exact f3 h
    · exact absurd h (by decide)
    · exact absurd h (by decide)
  unfold mainBody handledResult
  rw [hb]
  dsimp only
  rw [failureDataset_spec ds htime f1 f2]
  dsimp only
  rw [setVar_scalar]
  dsimp only
  rw [upsert_keys_fresh _ _ _ f3n]
  simp only [failureResultDataset, logScalarVar]

lemma mainBody_propagate {np : ℕ}
    (cD : Dataset → Except PyErr (Dmr np × EFloat × EFloat))
    (cS : Dataset → Except PyErr (Smr np × EFloat × EFloat))
    (vD : Dmr np → MrView) (v14D : Dmr14 np → MrView)
    (vS : Smr np → MrView) (v14S : Smr14 np → MrView)
    (Fatm : ℚ → EFloat) (e : ℚ) (ds : Dataset) (method s : String)
    (hb : tryBlock cD cS vD v14D vS v14S Fatm e ds method = .error (.linAlgError s)) :
    mainBody cD cS vD v14D vS v14S Fatm e ds method = .error (.linAlgError s) := by
  unfold mainBody handledResult
  rw [hb]

/-- The top level reduces to the main body on a legal method and a
non-empty batch. -/
lemma load_nonEmpty {np : ℕ}
    (cD : Dataset → Except PyErr (Dmr np × EFloat × EFloat))
    (cS : Dataset → Except PyErr (Smr np × EFloat × EFloat))
    (vD : Dmr np → MrView) (v14D : Dmr14 np → MrView)
    (vS : Smr np → MrView) (v14S : Smr14 np → MrView)
    (Fatm : ℚ → EFloat) (e : ℚ) (ds : Dataset) (method : String)
    (hm : method = "discrete" ∨ method = "continuous")
    (hens : ds.ensShape ≠ [0]) :
    load_Delta_14C_dataset cD cS vD v14D vS v14S Fatm e ds method =
      (ds, mainBody cD cS vD v14D vS v14S Fatm e ds method) := by
  unfold load_Delta_14C_dataset
  rw [if_neg (not_not_intro hm), if_neg hens]

/-- The top level reduces to the empty-batch branch on a legal method and an
empty batch. -/
lemma load_empty {np : ℕ}
    (cD : Dataset → Except PyErr (Dmr np × EFloat × EFloat))
    (cS : Dataset → Except PyErr (Smr np × EFloat × EFloat))
    (vD : Dmr np → MrView) (v14D : Dmr14 np → MrView)
    (vS : Smr np → MrView) (v14S : Smr14 np → MrView)
    (Fatm : ℚ → EFloat) (e : ℚ) (ds : Dataset) (method : String)
    (hm : method = "discrete" ∨ method = "continuous")
    (hens : ds.ensShape = [0]) :
    load_Delta_14C_dataset cD cS vD v14D vS v14S Fatm e ds method =
      emptyBatchBranch ds := by
  unfold load_Delta_14C_dataset
  rw [if_neg (not_not_intro hm), if_pos hens]

/-- The equilibrium solve of `load_dmr_14C` fails with `LinAlgError` on the
fixture `dmrSingular` once the abstracted decay factor is `1/2`. -/
lemma dmrSingular_solve :
    load_dmr_14C (fun _ => .fin 0) (1 / 2) dmrSingular =
      .error (.linAlgError ("Singular matrix")) := by
  have hB0 : B0_14C_dmr (1 / 2) dmrSingular = 1 := by
    apply Matrix.ext
    intro i j
    have hi : i = 0 := Subsingleton.elim i 0
    have hj : j = 0 := Subsingleton.elim j 0
    subst hi hj
    simp [B0_14C_dmr, matMean, dmrSingular, Matrix.mul_apply, Matrix.smul_apply,
      Matrix.one_apply_eq, smul_eq_mul]
  have hdet : (1 - B0_14C_dmr (1 / 2) dmrSingular).det = 0 := by
    rw [hB0]
    simp [Matrix.det_fin_one]
  unfold load_dmr_14C
  simp only [linalgSolve, if_pos hdet]

/-! ## Claim C9

"For every flux series (external input, internal transfer, external output)
and in both modes, the monthly-aggregated flux magnitudes are converted to
daily rates by dividing by the step length of 365.25/12 days, i.e. each
converted value equals its monthly value scaled by 1/(365.25/12)."

`Variable.convert` itself lives in `bgc_md2/Variable.py`, which is not under
`src/`; it is modelled from the spec (`convertMonthlyToDaily`).  The 2-d
conversion `toDaily` is applied to the external-input and external-output
series and the 3-d `toDaily3` to the internal-transfer series, by the single
`create_Delta_14C_dataset` used by both the discrete and the continuous
mode. -/

/-- C9: every entry of a converted flux array equals the corresponding
monthly entry divided by `365.25/12` (entries beyond the array bounds are
the `nan` padding on both sides). -/
theorem C9_theorem :
    (∀ (m : List (List EFloat)) (k p : ℕ),
      ((toDaily m).getD k []).getD p .nan =
        (m.getD k []).getD p .nan / EFloat.fin daysPerMonth) ∧
    (∀ (m : List (List (List EFloat))) (t i j : ℕ),
      (((toDaily3 m).getD t []).getD i []).getD j .nan =
        ((m.getD t []).getD i []).getD j .nan / EFloat.fin daysPerMonth) := by
  constructor
  · intro m k p
    have houter : (toDaily m).getD k ([] : List EFloat)
        = List.map convertMonthlyToDaily (m.getD k []) := by
      rw [show ([] : List EFloat) = List.map convertMonthlyToDaily [] from rfl]
      exact getD_map_general _ m k []
    rw [houter,
      show EFloat.nan = convertMonthlyToDaily .nan from rfl,
      getD_map_general]
    rfl
  · intro m t i j
    have houter : (toDaily3 m).getD t ([] : List (List EFloat))
        = List.map (List.map convertMonthlyToDaily) (m.getD t []) := by
      rw [show ([] : List (List EFloat)) = List.map (List.map convertMonthlyToDaily) []
        from rfl]
      exact getD_map_general _ m t []
    have hmid : ∀ (row : List (List EFloat)),
        (List.map (List.map convertMonthlyToDaily) row).getD i ([] : List EFloat)
          = List.map convertMonthlyToDaily (row.getD i []) := by
      intro row
      rw [show ([] : List EFloat) = List.map convertMonthlyToDaily [] from rfl]
      exact getD_map_general _ row i []
    rw [houter, hmid,
      show EFloat.nan = convertMonthlyToDaily .nan from rfl,
      getD_map_general]
    rfl

/-! ## Claim C10

"A Δ¹⁴C output variable with a given name (pool stock, external input,
internal transfer pair, or external output) is included in the result
dataset if and only if a variable of that exact name exists in the
caller-supplied input dataset; candidate names not present in the input are
silently skipped rather than added or reported." -/

/-- C10: for every candidate name produced by the four loops of
`create_Delta_14C_dataset`, membership in the result's data variables is
equivalent to the name occurring among the variables of the input dataset. -/
theorem C10_theorem (ds : Dataset) (mr mr14 : MrView) (name : String)
    (hname : name ∈ (stockJobs load_model_structure_pool_names mr mr14 ++
      usJobs load_model_structure_pool_names mr mr14 ++
      fsJobs load_model_structure_pool_names mr mr14 ++
      rsJobs load_model_structure_pool_names mr mr14).map Prod.fst) :
    name ∈ (create_Delta_14C_dataset load_model_structure_pool_names ds mr mr14).dataVars.map
        Prod.fst
      ↔ name ∈ ds.varNames := by
  show name ∈ (List.foldl _ [] _).map Prod.fst ↔ _
  rw [foldl_add_variable_keys_mem]
  constructor
  · rintro (h | ⟨_, h⟩)
    · simp at h
    · exact h
  · intro h
    exact Or.inr ⟨hname, h⟩

/-- C10 witness: the pool-stock candidate `Labile` is present in the fixture
dataset and appears in the result. -/
theorem C10_witness :
    ("Labile" ∈ (stockJobs load_model_structure_pool_names mrViewTrivial mrViewTrivial ++
      usJobs load_model_structure_pool_names mrViewTrivial mrViewTrivial ++
      fsJobs load_model_structure_pool_names mrViewTrivial mrViewTrivial ++
      rsJobs load_model_structure_pool_names mrViewTrivial mrViewTrivial).map Prod.fst) ∧
    ("Labile" ∈ (create_Delta_14C_dataset load_model_structure_pool_names dsFix
        mrViewTrivial mrViewTrivial).dataVars.map Prod.fst
      ↔ "Labile" ∈ dsFix.varNames) := by
  have h : "Labile" ∈ (stockJobs load_model_structure_pool_names mrViewTrivial mrViewTrivial ++
      usJobs load_model_structure_pool_names mrViewTrivial mrViewTrivial ++
      fsJobs load_model_structure_pool_names mrViewTrivial mrViewTrivial ++
      rsJobs load_model_structure_pool_names mrViewTrivial mrViewTrivial).map Prod.fst := by
    rw [List.map_append]
    refine List.mem_append_left _ ?_
    rw [List.map_append, List.map_append]
    refine List.mem_append_left _ (List.mem_append_left _ ?_)
    decide
  exact ⟨h, C10_theorem dsFix mrViewTrivial mrViewTrivial ("Labile") h⟩

/-! ## Claim C1

"For every input dataset on which the reconstruction or the tracer
equilibrium solve fails (including a singular equilibrium matrix (I-B0_14)
in either mode), load_Delta_14C_dataset does not propagate an exception to
the caller: it returns a result whose `log` field is a non-empty error
message and whose numeric data variables and both error metrics
(max_abs_err, max_rel_err) are all missing-value (NaN)." -/

/-- C1 counterexample: a reconstruction yielding `dmrSingular` makes the
equilibrium solve of `load_dmr_14C` raise `LinAlgError` (singular
`I - B0_14C`), and the top level — whose handler catches only `DMRError` —
propagates that exception to the caller instead of returning a logged
result. -/
theorem C1_counterexample :
    load_dmr_14C FatmZero (1 / 2) dmrSingular =
      .error (.linAlgError ("Singular matrix")) ∧
    load_Delta_14C_dataset createDMRrunSingular createSMRrunFail vDTriv v14DTriv
      vSTriv v14STriv FatmZero (1 / 2) dsFix ("discrete") =
      (dsFix, .error (.linAlgError ("Singular matrix"))) := by
  have hsolve : load_dmr_14C FatmZero (1 / 2) dmrSingular =
      .error (.linAlgError ("Singular matrix")) := dmrSingular_solve
  refine ⟨hsolve, ?_⟩
  have hb := tryBlock_discrete_err createDMRrunSingular createSMRrunFail vDTriv
    v14DTriv vSTriv v14STriv FatmZero (1 / 2) dsFix dmrSingular (.fin 0) (.fin 0)
    (.linAlgError ("Singular matrix")) rfl hsolve
  rw [load_nonEmpty createDMRrunSingular createSMRrunFail vDTriv v14DTriv vSTriv
      v14STriv FatmZero (1 / 2) dsFix ("discrete") (Or.inl rfl) (by decide),
    mainBody_propagate createDMRrunSingular createSMRrunFail vDTriv v14DTriv vSTriv
      v14STriv FatmZero (1 / 2) dsFix ("discrete") ("Singular matrix") hb]

/-- C1 (amended): reconstruction failures signalled as `DMRError` are
recovered — the caller receives a result whose `log` carries the error
message and whose data variables and error metrics are all NaN — but an
equilibrium-solve failure (`LinAlgError` from a singular matrix) is *not*
caught by the `except DMRError` handler and propagates to the caller, in
both modes. -/
theorem C1_theorem {np : ℕ} :
    (∀ (cD : Dataset → Except PyErr (Dmr np × EFloat × EFloat))
       (cS : Dataset → Except PyErr (Smr np × EFloat × EFloat))
       (vD : Dmr np → MrView) (v14D : Dmr14 np → MrView)
       (vS : Smr np → MrView) (v14S : Smr14 np → MrView)
       (Fatm : ℚ → EFloat) (e : ℚ) (ds : Dataset) (msg : String),
       ds.ensShape ≠ [0] →
       "time" ∉ ds.dataVars.map Prod.fst →
       "max_abs_err" ∉ ds.dataVars.map Prod.fst →
       "max_rel_err" ∉ ds.dataVars.map Prod.fst →
       "log" ∉ ds.dataVars.map Prod.fst →
       cD ds = .error (.dmrError msg) →
       load_Delta_14C_dataset cD cS vD v14D vS v14S Fatm e ds "discrete" =
         (ds, .ok (failureResultDataset ds msg))) ∧
    (∀ (cD : Dataset → Except PyErr (Dmr np × EFloat × EFloat))
       (cS : Dataset → Except PyErr (Smr np × EFloat × EFloat))
       (vD : Dmr np → MrView) (v14D : Dmr14 np → MrView)
       (vS : Smr np → MrView) (v14S : Smr14 np → MrView)
       (Fatm : ℚ → EFloat) (e : ℚ) (ds : Dataset) (msg : String),
       ds.ensShape ≠ [0] →
       "time" ∉ ds.dataVars.map Prod.fst →
       "max_abs_err" ∉ ds.dataVars.map Prod.fst →
       "max_rel_err" ∉ ds.dataVars.map Prod.fst →
       "log" ∉ ds.dataVars.map Prod.fst →
       cS ds = .error (.dmrError msg) →
       load_Delta_14C_dataset cD cS vD v14D vS v14S Fatm e ds "continuous" =
         (ds, .ok (failureResultDataset ds msg))) ∧
    (∀ (cD : Dataset → Except PyErr (Dmr np × EFloat × EFloat))
       (cS : Dataset → Except PyErr (Smr np × EFloat × EFloat))
       (vD : Dmr np → MrView) (v14D : Dmr14 np → MrView)
       (vS : Smr np → MrView) (v14S : Smr14 np → MrView)
       (Fatm : ℚ → EFloat) (e : ℚ) (ds : Dataset)
       (dmr : Dmr np) (a r : EFloat) (s : String),
       ds.ensShape ≠ [0] →
       cD ds = .ok (dmr, a, r) →
       load_dmr_14C Fatm e dmr = .error (.linAlgError s) →
       load_Delta_14C_dataset cD cS vD v14D vS v14S Fatm e ds "discrete" =
         (ds, .error (.linAlgError s))) ∧
    (∀ (cD : Dataset → Except PyErr (Dmr np × EFloat × EFloat))
       (cS : Dataset → Except PyErr (Smr np × EFloat × EFloat))
       (vD : Dmr np → MrView) (v14D : Dmr14 np → MrView)
       (vS : Smr np → MrView) (v14S : Smr14 np → MrView)
       (Fatm : ℚ → EFloat) (e : ℚ) (ds : Dataset)
       (smr : Smr np) (a r : EFloat) (s : String),
       ds.ensShape ≠ [0] →
       cS ds = .ok (smr, a, r) →
       load_smr_14C Fatm smr = .error (.linAlgError s) →
       load_Delta_14C_dataset cD cS vD v14D vS v14S Fatm e ds "continuous" =
         (ds, .error (.linAlgError s))) := by
  refine ⟨?_, ?_, ?_, ?_⟩
  · intro cD cS vD v14D vS v14S Fatm e ds msg hens htime f1 f2 f3 h
    rw [load_nonEmpty cD cS vD v14D vS v14S Fatm e ds "discrete" (Or.inl rfl) hens,
      mainBody_dmrError cD cS vD v14D vS v14S Fatm e ds "discrete" msg
        (tryBlock_discrete_dmrError cD cS vD v14D vS v14S Fatm e ds msg h)
        htime f1 f2 f3]
  · intro cD cS vD v14D vS v14S Fatm e ds msg hens htime f1 f2 f3 h
    rw [load_nonEmpty cD cS vD v14D vS v14S Fatm e ds "continuous" (Or.inr rfl) hens,
      mainBody_dmrError cD cS vD v14D vS v14S Fatm e ds "continuous" msg
        (tryBlock_continuous_dmrError cD cS vD v14D vS v14S Fatm e ds msg h)
        htime f1 f2 f3]
  · intro cD cS vD v14D vS v14S Fatm e ds dmr a r s hens h1 h2
    rw [load_nonEmpty cD cS vD v14D vS v14S Fatm e ds "discrete" (Or.inl rfl) hens,
      mainBody_propagate cD cS vD v14D vS v14S Fatm e ds "discrete" s
        (tryBlock_discrete_err cD cS vD v14D vS v14S Fatm e ds dmr a r
          (.linAlgError s) h1 h2)]
  · intro cD cS vD v14D vS v14S Fatm e ds smr a r s hens h1 h2
    rw [load_nonEmpty cD cS vD v14D vS v14S Fatm e ds "continuous" (Or.inr rfl) hens,
      mainBody_propagate cD cS vD v14D vS v14S Fatm e ds "continuous" s
        (tryBlock_continuous_err cD cS vD v14D vS v14S Fatm e ds smr a r
          (.linAlgError s) h1 h2)]

/-- C1 witness: the amended theorem applied at the concrete fixtures — a
failing reconstruction is degraded to a logged all-NaN result; a singular
equilibrium solve escapes as `LinAlgError`. -/
theorem C1_witness :
    (dsFix.ensShape ≠ [0]) ∧
    (createDMRrunFail dsFix = .error (.dmrError ("reconstruction failed"))) ∧
    (load_Delta_14C_dataset createDMRrunFail createSMRrunFail vDTriv v14DTriv
      vSTriv v14STriv FatmZero 1 dsFix ("discrete") =
      (dsFix, .ok (failureResultDataset dsFix ("reconstruction failed")))) ∧
    (createDMRrunSingular dsFix = .ok (dmrSingular, .fin 0, .fin 0)) ∧
    (load_Delta_14C_dataset createDMRrunSingular createSMRrunFail vDTriv v14DTriv
      vSTriv v14STriv FatmZero (1 / 2) dsFix ("discrete") =
      (dsFix, .error (.linAlgError ("Singular matrix")))) :=
  ⟨by decide, rfl,
   C1_theorem.1 createDMRrunFail createSMRrunFail vDTriv v14DTriv vSTriv v14STriv
     FatmZero 1 dsFix ("reconstruction failed") (by decide) (by decide) (by decide)
     (by decide) (by decide) rfl,
   rfl,
   C1_theorem.2.2.1 createDMRrunSingular createSMRrunFail vDTriv v14DTriv vSTriv
     v14STriv FatmZero (1 / 2) dsFix dmrSingular (.fin 0) (.fin 0)
     ("Singular matrix") (by decide) rfl dmrSingular_solve⟩

/-! ## Claim C2

"For every invocation of load_Delta_14C_dataset (and of
create_Delta_14C_dataset), the caller-supplied input dataset is left
unchanged: no variable is added to it, removed from it, or overwritten in
place, on the success path, the failure path, and the empty-batch path
alike." -/

/-- C2 counterexample: on the empty-batch path the function writes the three
result fields into the caller-supplied dataset itself (lines 417-422 assign
into `ds`, and line 423 returns it), so the input comes back changed. -/
theorem C2_counterexample :
    (load_Delta_14C_dataset createDMRrunFail createSMRrunFail vDTriv v14DTriv
      vSTriv v14STriv FatmZero 1 dsEmpty ("discrete")).1 ≠ dsEmpty := by
  rw [load_empty createDMRrunFail createSMRrunFail vDTriv v14DTriv vSTriv v14STriv
      FatmZero 1 dsEmpty ("discrete") (Or.inl rfl) rfl,
    emptyBatchBranch_spec dsEmpty (Or.inr (by decide)) (Or.inr (by decide))
      (Or.inr (by decide)) (by decide) (by decide) (by decide)]
  intro h
  have hlen := congrArg (fun d => d.dataVars.length) h
  simp [emptyResultDataset, dsEmpty] at hlen

/-- C2 (amended): the input dataset is returned unchanged on every path with
a non-empty batch (success, `DMRError` failure, escaped exception) and on an
invalid method; on the empty-batch path, however, the three result fields
are written into the caller-supplied dataset in place. -/
theorem C2_theorem {np : ℕ} :
    (∀ (cD : Dataset → Except PyErr (Dmr np × EFloat × EFloat))
       (cS : Dataset → Except PyErr (Smr np × EFloat × EFloat))
       (vD : Dmr np → MrView) (v14D : Dmr14 np → MrView)
       (vS : Smr np → MrView) (v14S : Smr14 np → MrView)
       (Fatm : ℚ → EFloat) (e : ℚ) (ds : Dataset) (method : String),
       ds.ensShape ≠ [0] →
       (load_Delta_14C_dataset cD cS vD v14D vS v14S Fatm e ds method).1 = ds) ∧
    (∀ (cD : Dataset → Except PyErr (Dmr np × EFloat × EFloat))
       (cS : Dataset → Except PyErr (Smr np × EFloat × EFloat))
       (vD : Dmr np → MrView) (v14D : Dmr14 np → MrView)
       (vS : Smr np → MrView) (v14S : Smr14 np → MrView)
       (Fatm : ℚ → EFloat) (e : ℚ) (ds : Dataset) (method : String),
       method ≠ "discrete" → method ≠ "continuous" →
       (load_Delta_14C_dataset cD cS vD v14D vS v14S Fatm e ds method).1 = ds) ∧
    (∀ (cD : Dataset → Except PyErr (Dmr np × EFloat × EFloat))
       (cS : Dataset → Except PyErr (Smr np × EFloat × EFloat))
       (vD : Dmr np → MrView) (v14D : Dmr14 np → MrView)
       (vS : Smr np → MrView) (v14S : Smr14 np → MrView)
       (Fatm : ℚ → EFloat) (e : ℚ) (ds : Dataset) (method : String),
       (method = "discrete" ∨ method = "continuous") →
       ds.ensShape = [0] →
       (ds.dims.lookup "ens" = none ∨ ds.dims.lookup "ens" = some 0) →
       (ds.dims.lookup "lat" = none ∨ ds.dims.lookup "lat" = some 0) →
       (ds.dims.lookup "lon" = none ∨ ds.dims.lookup "lon" = some 0) →
       "max_abs_err" ∉ ds.dataVars.map Prod.fst →
       "max_rel_err" ∉ ds.dataVars.map Prod.fst →
       "log" ∉ ds.dataVars.map Prod.fst →
       (load_Delta_14C_dataset cD cS vD v14D vS v14S Fatm e ds method).1.dataVars.map
           Prod.fst
         = ds.dataVars.map Prod.fst ++ ["max_abs_err", "max_rel_err", "log"]) := by
  refine ⟨?_, ?_, ?_⟩
  · intro cD cS vD v14D vS v14S Fatm e ds method hens
    by_cases h1 : method = "discrete" ∨ method = "continuous"
    · rw [load_nonEmpty cD cS vD v14D vS v14S Fatm e ds method h1 hens]
    · unfold load_Delta_14C_dataset
      rw [if_pos h1]
  · intro cD cS vD v14D vS v14S Fatm e ds method hm1 hm2
    unfold load_Delta_14C_dataset
    rw [if_pos (not_or.mpr ⟨hm1, hm2⟩)]
  · intro cD cS vD v14D vS v14S Fatm e ds method hm hens he hl hlo f1 f2 f3
    rw [load_empty cD cS vD v14D vS v14S Fatm e ds method hm hens,
      emptyBatchBranch_spec ds he hl hlo f1 f2 f3]
    simp [emptyResultDataset]

/-- C2 witness: the amended theorem applied at the concrete fixtures — a
non-empty-batch call returns `dsFix` untouched; the empty-batch call on
`dsEmpty` appends the three result fields to the input itself. -/
theorem C2_witness :
    (dsFix.ensShape ≠ [0]) ∧
    ((load_Delta_14C_dataset createDMRrunFail createSMRrunFail vDTriv v14DTriv
      vSTriv v14STriv FatmZero 1 dsFix ("discrete")).1 = dsFix) ∧
    ((load_Delta_14C_dataset createDMRrunFail createSMRrunFail vDTriv v14DTriv
      vSTriv v14STriv FatmZero 1 dsEmpty ("discrete")).1.dataVars.map Prod.fst
      = dsEmpty.dataVars.map Prod.fst ++ ["max_abs_err", "max_rel_err", "log"]) :=
  ⟨by decide,
   C2_theorem.1 createDMRrunFail createSMRrunFail vDTriv v14DTriv vSTriv v14STriv
     FatmZero 1 dsFix ("discrete") (by decide),
   C2_theorem.2.2 createDMRrunFail createSMRrunFail vDTriv v14DTriv vSTriv v14STriv
     FatmZero 1 dsEmpty ("discrete") (Or.inl rfl) rfl (Or.inr (by decide))
     (Or.inr (by decide)) (Or.inr (by decide)) (by decide) (by decide) (by decide)⟩

/-! ## Claim C3

"For every input dataset whose batch (ensemble) dimension has length zero
and for both legal mode values, load_Delta_14C_dataset returns immediately a
correctly-shaped empty result (empty max_abs_err, max_rel_err, and log
fields of matching empty shape) without attempting any reconstruction or
solve, and with no log entries." -/

/-- C3 counterexample: on `dsEmptyLat` — ens dimension of length zero but a
`lat` dimension of length 2 — the empty-batch branch itself raises an xarray
dimension-conflict `ValueError` while assigning the hard-coded `(0,0,0)`
variable, instead of returning a correctly-shaped empty result. -/
theorem C3_counterexample :
    load_Delta_14C_dataset createDMRrunFail createSMRrunFail vDTriv v14DTriv
      vSTriv v14STriv FatmZero 1 dsEmptyLat ("discrete") =
      (dsEmptyLat, .error (.valueError ("conflicting sizes for dimension"))) := by
  have hsv : dsEmptyLat.setVar "max_abs_err" emptyVarFloat =
      .error (.valueError ("conflicting sizes for dimension")) := by
    simp only [Dataset.setVar]
    rw [if_neg (by decide)]
  rw [load_empty createDMRrunFail createSMRrunFail vDTriv v14DTriv vSTriv v14STriv
      FatmZero 1 dsEmptyLat ("discrete") (Or.inl rfl) rfl]
  unfold emptyBatchBranch
  rw [hsv]

/-- C3 (amended): for an input whose `ens`, `lat` and `lon` dimensions are
all of length zero (or absent beyond `ens`), and for both legal modes, the
function returns immediately — independently of every reconstruction/solve
stage — the input with the three `(0,0,0)`-shaped empty fields attached, and
the `log` field has no entries. -/
theorem C3_theorem {np : ℕ}
    (cD : Dataset → Except PyErr (Dmr np × EFloat × EFloat))
    (cS : Dataset → Except PyErr (Smr np × EFloat × EFloat))
    (vD : Dmr np → MrView) (v14D : Dmr14 np → MrView)
    (vS : Smr np → MrView) (v14S : Smr14 np → MrView)
    (Fatm : ℚ → EFloat) (e : ℚ) (ds : Dataset) (method : String)
    (hm : method = "discrete" ∨ method = "continuous")
    (hens : ds.ensShape = [0])
    (he : ds.dims.lookup "ens" = none ∨ ds.dims.lookup "ens" = some 0)
    (hl : ds.dims.lookup "lat" = none ∨ ds.dims.lookup "lat" = some 0)
    (hlo : ds.dims.lookup "lon" = none ∨ ds.dims.lookup "lon" = some 0)
    (f1 : "max_abs_err" ∉ ds.dataVars.map Prod.fst)
    (f2 : "max_rel_err" ∉ ds.dataVars.map Prod.fst)
    (f3 : "log" ∉ ds.dataVars.map Prod.fst) :
    load_Delta_14C_dataset cD cS vD v14D vS v14S Fatm e ds method =
      (emptyResultDataset ds, .ok (emptyResultDataset ds)) ∧
    (emptyResultDataset ds).lookupDataVar "max_abs_err" = some emptyVarFloat ∧
    (emptyResultDataset ds).lookupDataVar "max_rel_err" = some emptyVarFloat ∧
    (emptyResultDataset ds).lookupDataVar "log" = some emptyVarStr ∧
    emptyVarStr.shape = [0, 0, 0] ∧ emptyVarStr.data = .strs [] := by
  refine ⟨?_, ?_, ?_, ?_, rfl, rfl⟩
  · rw [load_empty cD cS vD v14D vS v14S Fatm e ds method hm hens,
      emptyBatchBranch_spec ds he hl hlo f1 f2 f3]
  · show ((emptyResultDataset ds).dataVars).lookup "max_abs_err" = some emptyVarFloat
    simp only [emptyResultDataset]
    rw [lookup_append, (lookup_eq_none_iff _ _).mpr f1]
    decide
  · show ((emptyResultDataset ds).dataVars).lookup "max_rel_err" = some emptyVarFloat
    simp only [emptyResultDataset]
    rw [lookup_append, (lookup_eq_none_iff _ _).mpr f2]
    decide
  · show ((emptyResultDataset ds).dataVars).lookup "log" = some emptyVarStr
    simp only [emptyResultDataset]
    rw [lookup_append, (lookup_eq_none_iff _ _).mpr f3]
    decide

/-- C3 witness: the amended theorem applied to the all-empty fixture in
continuous mode. -/
theorem C3_witness :
    (dsEmpty.ensShape = [0]) ∧
    (load_Delta_14C_dataset createDMRrunFail createSMRrunFail vDTriv v14DTriv
      vSTriv v14STriv FatmZero 1 dsEmpty ("continuous") =
      (emptyResultDataset dsEmpty, .ok (emptyResultDataset dsEmpty))) ∧
    (emptyResultDataset dsEmpty).lookupDataVar "log" = some emptyVarStr :=
  ⟨rfl,
   (C3_theorem createDMRrunFail createSMRrunFail vDTriv v14DTriv vSTriv v14STriv
     FatmZero 1 dsEmpty ("continuous") (Or.inr rfl) rfl (Or.inr (by decide))
     (Or.inr (by decide)) (Or.inr (by decide)) (by decide) (by decide) (by decide)).1,
   (C3_theorem createDMRrunFail createSMRrunFail vDTriv v14DTriv vSTriv v14STriv
     FatmZero 1 dsEmpty ("continuous") (Or.inr rfl) rfl (Or.inr (by decide))
     (Or.inr (by decide)) (Or.inr (by decide)) (by decide) (by decide)
     (by decide)).2.2.2.1⟩

end CARDAMOMlib
